import Mathlib

/-!
SFFS core: a shallow embedding of the on-disk data model and the core
operations of the SFFS file system, translated from the C sources
(`src/bitmaps.c`, `src/src/sffs.c`, `src/src/sffs_device.c`,
`src/src/sffs_direntry.c`, `src/utils/sffs_mkfs.c`,
layout/constants from `src/include/sffs.h`), together with theorems
settling the specification claims C1-C10.

Modelling conventions:

* A disk is a total function `Nat → Nat → Nat` (block id → byte offset →
  byte value).  Byte buffers (the per-context scratch cache, in-memory
  inode entries, block contents, directory records) are `Nat → Nat`.
* `sffs_err_t` is a C enum.  Enumerators without an explicit value are
  "previous + 1", so after `SFFS_ERR_INVARG = -1`, `SFFS_ERR_INVBLK = -2`
  the remaining enumerators are SFFS_ERR_INIT = -1, SFFS_ERR_MEMALLOC = 0,
  SFFS_ERR_FS = 1, SFFS_ERR_NOSPC = 2, SFFS_ERR_DEV_WRITE = 3,
  SFFS_ERR_DEV_READ = 4, SFFS_ERR_DEV_SEEK = 5, SFFS_ERR_DEV_STAT = 6,
  SFFS_ERR_NOENT = 7, SFFS_ERR_ENTEXIS = 8.  Error results are modelled
  as `Int` carrying exactly these numeric values, because the C control
  flow (`if (errc < 0)`, `if (errc == 1)`, `!= 0`) depends on them.
* C unsigned subtraction is modelled with the wrapping helpers `u32sub` /
  `u16sub`; values stored through `setU8/setU16/setU32` are truncated to
  their width exactly as a C store does.  Additions and multiplications
  of indices that stay far below `2^32` in every reachable configuration
  are modelled on `Nat` directly.
* Device I/O always succeeds in the model (the backing image is a total
  function); the explicit C failure branches (write to block 0) are kept.
* malloc'ed buffers are modelled as all-zero buffers.  Places where the C
  reads uninitialized memory or dereferences an uninitialized pointer are
  modelled as reading 0 and marked as undefined behavior in comments.
* while-loops whose iteration count is controlled by data read from disk
  (linked inode-list traversal, directory-record walks) are given explicit
  fuel; running out of fuel corresponds to a C loop that never terminates
  on such (corrupt) input.  All fuel values are chosen so that well-formed
  inputs never exhaust them.
-/

/-- Error codes of `sffs_err_t` (C enum from `include/sffs.h`); values follow
the C rule that an enumerator without initializer is previous + 1. -/
def SFFS_ERR_INVARG : Int := -1

/-- C enum value: explicitly -2. -/
def SFFS_ERR_INVBLK : Int := -2

/-- C enum value: follows SFFS_ERR_INVBLK, hence -1 (collides with INVARG). -/
def SFFS_ERR_INIT : Int := -1

/-- C enum value: 0 (collides with the `__DEFAULT2` success/false value). -/
def SFFS_ERR_MEMALLOC : Int := 0

/-- C enum value: 1 (collides with `__DEFAULT1`, i.e. boolean `true`). -/
def SFFS_ERR_FS : Int := 1

/-- C enum value: 2. -/
def SFFS_ERR_NOSPC : Int := 2

/-- C enum value: 3. -/
def SFFS_ERR_DEV_WRITE : Int := 3

/-- C enum value: 4. -/
def SFFS_ERR_DEV_READ : Int := 4

/-- C enum value: 5. -/
def SFFS_ERR_DEV_SEEK : Int := 5

/-- C enum value: 6. -/
def SFFS_ERR_DEV_STAT : Int := 6

/-- C enum value: 7. -/
def SFFS_ERR_NOENT : Int := 7

/-- C enum value: 8. -/
def SFFS_ERR_ENTEXIS : Int := 8

/-- `SFFS_MAGIC` from `include/sffs.h`. -/
def SFFS_MAGIC : Nat := 0x53FF5346

/-- `sizeof(struct sffs_inode)` with `__attribute__((packed))`:
8 × u32 (32) + 3 × u16 (6) + 32-byte time union + 58 padding = 128. -/
def SFFS_INODE_SIZE : Nat := 128

/-- `SFFS_INODE_DATA_SIZE` is defined as `SFFS_INODE_SIZE` in the header. -/
def SFFS_INODE_DATA_SIZE : Nat := 128

/-- `sizeof(struct sffs_inode_list)`: two u32 header fields before the
flexible `blks[]` array. -/
def SFFS_INODE_LIST_SIZE : Nat := 8

/-- `SFFS_MAX_INODE_LIST` default from `include/sffs.h`. -/
def SFFS_MAX_INODE_LIST : Nat := 32

/-- `SFFS_RESV_INODES` from `include/sffs.h`. -/
def SFFS_RESV_INODES : Nat := 0

/-- `SFFS_INODE_RATIO` from `include/sffs.h`. -/
def SFFS_INODE_RATIO : Nat := 131072

/-- `sizeof(struct sffs_superblock)` with packing:
9 × u32 + 8 × u16 + 5 × u32 + 3 × u32 + 4 × u32 = 100 bytes. -/
def SFFS_SB_SIZE : Nat := 100

/-- `SFFS_GET_BLK_RD` flag of `sffs_get_data_block_info`. -/
def SFFS_GET_BLK_RD : Nat := 1

/-- `SFFS_GET_BLK_LT` flag of `sffs_get_data_block_info`. -/
def SFFS_GET_BLK_LT : Nat := 2

/-- `SFFS_DIRENTRY_LENGTH` from `include/sffs.h`. -/
def SFFS_DIRENTRY_LENGTH : Nat := 8

/-- `SFFS_MAX_DIR_ENTRY` from `include/sffs.h`. -/
def SFFS_MAX_DIR_ENTRY : Nat := 256

/-- File-type mask `SFFS_IFMT` (octal 0170000). -/
def SFFS_IFMT : Nat := 61440

/-- Regular-file type bits `SFFS_IFREG` (octal 0100000). -/
def SFFS_IFREG : Nat := 32768

/-- Directory type bits `SFFS_IFDIR` (octal 0040000). -/
def SFFS_IFDIR : Nat := 16384

/-- `SFFS_ISREG(mode)`: the C macro expands to
`(mode & SFFS_IFMT) == __S_IFREG`, and the host `__S_IFREG` equals the
SFFS value 0100000. -/
def SFFS_ISREG (mode : Nat) : Bool := Nat.land mode SFFS_IFMT = SFFS_IFREG

/-- `SFFS_ISDIR(mode)`: `(mode & SFFS_IFMT) == __S_IFDIR`. -/
def SFFS_ISDIR (mode : Nat) : Bool := Nat.land mode SFFS_IFMT = SFFS_IFDIR

/-- 32-bit wrapping subtraction, as C `uint32_t` subtraction: equal to
`(a % 2^32 + (2^32 - b % 2^32)) % 2^32`, written branch-wise (no wrap
needed when `b ≤ a`) so that terms stay cheap for kernel reduction. -/
def u32sub (a b : Nat) : Nat :=
  if b % 4294967296 ≤ a % 4294967296 then a % 4294967296 - b % 4294967296
  else a % 4294967296 + (4294967296 - b % 4294967296)

/-- 16-bit wrapping subtraction, as C `uint16_t` subtraction (same
branch-wise form as `u32sub`). -/
def u16sub (a b : Nat) : Nat :=
  if b % 65536 ≤ a % 65536 then a % 65536 - b % 65536
  else a % 65536 + (65536 - b % 65536)

/-- Read one byte of a buffer (buffers store bytes; reads normalize). -/
def getU8 (b : Nat → Nat) (off : Nat) : Nat := b off % 256

/-- Little-endian 16-bit read, as on the x86 target. -/
def getU16 (b : Nat → Nat) (off : Nat) : Nat :=
  getU8 b off + 256 * getU8 b (off + 1)

/-- Little-endian 32-bit read, as on the x86 target. -/
def getU32 (b : Nat → Nat) (off : Nat) : Nat :=
  getU8 b off + 256 * getU8 b (off + 1) + 65536 * getU8 b (off + 2) +
    16777216 * getU8 b (off + 3)

/-- Store one byte (truncating, as a C byte store). -/
def setU8 (b : Nat → Nat) (off v : Nat) : Nat → Nat :=
  fun j => if j = off then v % 256 else b j

/-- Little-endian 16-bit store. -/
def setU16 (b : Nat → Nat) (off v : Nat) : Nat → Nat :=
  setU8 (setU8 b off v) (off + 1) (v / 256)

/-- Little-endian 32-bit store. -/
def setU32 (b : Nat → Nat) (off v : Nat) : Nat → Nat :=
  setU8 (setU8 (setU8 (setU8 b off v) (off + 1) (v / 256)) (off + 2)
    (v / 65536)) (off + 3) (v / 16777216)

/-- `memcpy(dest + doff, src + soff, n)` on byte buffers. -/
def memcpyB (dest : Nat → Nat) (doff : Nat) (src : Nat → Nat) (soff n : Nat) :
    Nat → Nat :=
  fun j => if doff ≤ j ∧ j < doff + n then src (soff + (j - doff)) else dest j

/-- In-memory superblock, `struct sffs_superblock` (field for field). -/
structure Superblock where
  s_inodes_count : Nat
  s_inodes_reserved : Nat
  s_blocks_count : Nat
  s_free_blocks_count : Nat
  s_free_inodes_count : Nat
  s_block_size : Nat
  s_blocks_per_group : Nat
  s_group_count : Nat
  s_free_groups : Nat
  s_mount_time : Nat
  s_write_time : Nat
  s_mount_count : Nat
  s_max_mount_count : Nat
  s_state : Nat
  s_error : Nat
  s_inode_size : Nat
  s_inode_block_size : Nat
  s_magic : Nat
  s_max_inode_list : Nat
  s_features : Nat
  s_prealloc_blocks : Nat
  s_prealloc_dir_blocks : Nat
  s_data_bitmap_start : Nat
  s_data_bitmap_size : Nat
  s_first_data_block : Nat
  s_GIT_bitmap_start : Nat
  s_GIT_bitmap_size : Nat
  s_GIT_start : Nat
  s_GIT_size : Nat
deriving DecidableEq

/-- The file-system context (`sffs_context_t`): backing disk, in-memory
superblock, the shared scratch block buffer, plus the ambient process
values (`getuid()`, `getgid()`, `time(NULL)`) that `sffs_creat_inode`
reads from the environment. -/
structure FS where
  sb : Superblock
  disk : Nat → Nat → Nat
  cache : Nat → Nat
  uid : Nat
  gid : Nat
  now : Nat

/-- Bytes of a contiguous run of disk blocks starting at `blk`
(byte `j` lives in block `blk + j / B` at offset `j % B`). -/
def readBytes (disk : Nat → Nat → Nat) (B blk : Nat) : Nat → Nat :=
  fun j => disk (blk + j / B) (j % B)

/-- `read()` of `nbytes` device bytes into a caller buffer: the first
`nbytes` bytes are replaced, the rest of the buffer is untouched. -/
def devReadInto (disk : Nat → Nat → Nat) (B blk nbytes : Nat)
    (dest : Nat → Nat) : Nat → Nat :=
  fun j => if j < nbytes then readBytes disk B blk j else dest j

/-- `write()` of `nbytes` buffer bytes to the device at block `blk`. -/
def writeBytesD (disk : Nat → Nat → Nat) (B blk : Nat) (data : Nat → Nat)
    (nbytes : Nat) : Nat → Nat → Nat :=
  fun b j =>
    if blk ≤ b ∧ j < B ∧ (b - blk) * B + j < nbytes then
      data ((b - blk) * B + j)
    else disk b j

/-- `sffs_read_blk` (src/src/sffs_device.c): absolute positioning to
`block × block_size`, reads `blks × block_size` bytes into `dest`;
returns the `read()` byte count.  The `data == NULL` refusal cannot
arise in the model (buffers are total functions). -/
def sffs_read_blk (fs : FS) (block blks : Nat) (dest : Nat → Nat) :
    Int × (Nat → Nat) :=
  (((blks * fs.sb.s_block_size : Nat) : Int),
    devReadInto fs.disk fs.sb.s_block_size block
      (blks * fs.sb.s_block_size) dest)

/-- `sffs_write_blk` (src/src/sffs_device.c): refuses block 0 with -1
(the boot region), otherwise writes `blks × block_size` bytes and
returns the `write()` byte count. -/
def sffs_write_blk (fs : FS) (block : Nat) (data : Nat → Nat) (blks : Nat) :
    Int × FS :=
  if block = 0 then (-1, fs)
  else
    (((blks * fs.sb.s_block_size : Nat) : Int),
      { fs with
        disk := writeBytesD fs.disk fs.sb.s_block_size block data
          (blks * fs.sb.s_block_size) })

/-- Data-region base block added by `sffs_read_data_blk` and
`sffs_write_data_blk` (both compute this same expression inline):
`s_GIT_bitmap_size + s_GIT_size + s_data_bitmap_size`, plus
`1024 / block_size` when `block_size ≤ 1024` ("include boot region"). -/
def sffs_data_start (sb : Superblock) : Nat :=
  let ds := sb.s_GIT_bitmap_size + sb.s_GIT_size + sb.s_data_bitmap_size
  if sb.s_block_size ≤ 1024 then ds + 1024 / sb.s_block_size else ds

/-- `sffs_read_data_blk` (src/src/sffs_device.c): reads data-region-relative
blocks at absolute block `sffs_data_start + block`. -/
def sffs_read_data_blk (fs : FS) (block blks : Nat) (dest : Nat → Nat) :
    Int × (Nat → Nat) :=
  (((blks * fs.sb.s_block_size : Nat) : Int),
    devReadInto fs.disk fs.sb.s_block_size (sffs_data_start fs.sb + block)
      (blks * fs.sb.s_block_size) dest)

/-- `sffs_write_data_blk` (src/src/sffs_device.c): writes
data-region-relative blocks at absolute block `sffs_data_start + block`
(unlike `sffs_write_blk` there is no block-0 refusal). -/
def sffs_write_data_blk (fs : FS) (block : Nat) (data : Nat → Nat)
    (blks : Nat) : Int × FS :=
  (((blks * fs.sb.s_block_size : Nat) : Int),
    { fs with
      disk := writeBytesD fs.disk fs.sb.s_block_size
        (sffs_data_start fs.sb + block) data
        (blks * fs.sb.s_block_size) })

/-- `__check_bm` (src/bitmaps.c): tests bit `id % 8` of byte `id / 8` of a
byte buffer; returns `true`(1) or `false`(0). -/
def __check_bm (bm : Nat → Nat) (id : Nat) : Int :=
  let byte_id := id / 8
  let bit_id := id % 8
  if Nat.land (getU8 bm byte_id) (2 ^ bit_id) = 2 ^ bit_id then 1 else 0

/-- `__set_bm` (src/bitmaps.c): read-modify-write of bit `id % 8` in byte
`id / 8`.  When the bit is already 1 the function returns `SFFS_ERR_FS`
without touching the buffer - for `value = 0` (unset) as well as for
`value = 1`.  Otherwise it sets or clears the bit and returns `true`(1). -/
def __set_bm (bm : Nat → Nat) (id value : Nat) : Int × (Nat → Nat) :=
  let byte_id := id / 8
  let bit_id := id % 8
  let byte := getU8 bm byte_id
  if Nat.land byte (2 ^ bit_id) ≠ 2 ^ bit_id then
    if value = 1 then (1, setU8 bm byte_id (Nat.lor byte (2 ^ bit_id)))
    else if value = 0 then (1, setU8 bm byte_id (Nat.land byte (255 - 2 ^ bit_id)))
    else (1, bm)
  else (SFFS_ERR_FS, bm)

/-- `__sffs_set_bm` (src/bitmaps.c): locates bit `id` in block
`bm + id / block_size` at within-block bit position `id % block_size`,
reads that block into the context cache, applies `__set_bm`, and writes
the block back.  Note that the `errc < 0` test after `__set_bm` never
fires, because `SFFS_ERR_FS = 1`. -/
def __sffs_set_bm (fs : FS) (bm id value : Nat) : Int × FS :=
  let value := Nat.land value 1
  let block_size := fs.sb.s_block_size
  let bm_start := bm
  let bm_block := id / block_size
  let bm_id := id % block_size
  let r := sffs_read_blk fs (bm_start + bm_block) 1 fs.cache
  if r.1 < 0 then (r.1, fs)
  else
    let fs1 : FS := { fs with cache := r.2 }
    let s := __set_bm fs1.cache bm_id value
    if s.1 < 0 then (s.1, fs1)
    else
      let fs2 : FS := { fs1 with cache := s.2 }
      let w := sffs_write_blk fs2 (bm_start + bm_block) fs2.cache 1
      if w.1 < 0 then (w.1, w.2) else (1, w.2)

/-- `__sffs_check_bm` (src/bitmaps.c): reads block `bm + id / block_size`
into the cache and tests within-block bit `id % block_size`. -/
def __sffs_check_bm (fs : FS) (bm id : Nat) : Int × FS :=
  let block_size := fs.sb.s_block_size
  let bm_start := bm
  let bm_block := id / block_size
  let bm_id := id % block_size
  let r := sffs_read_blk fs (bm_start + bm_block) 1 fs.cache
  if r.1 < 0 then (r.1, fs)
  else
    let fs1 : FS := { fs with cache := r.2 }
    (__check_bm fs1.cache bm_id, fs1)

/-- `sffs_set_data_bm` (src/bitmaps.c line 15): note that the region base
passed is `s_GIT_bitmap_start`, exactly as in the C source. -/
def sffs_set_data_bm (fs : FS) (id : Nat) : Int × FS :=
  __sffs_set_bm fs fs.sb.s_GIT_bitmap_start id 1

/-- `sffs_set_GIT_bm` (src/bitmaps.c line 20). -/
def sffs_set_GIT_bm (fs : FS) (id : Nat) : Int × FS :=
  __sffs_set_bm fs fs.sb.s_GIT_bitmap_start id 1

/-- `sffs_unset_data_bm` (src/bitmaps.c line 25): base `s_data_bitmap_start`. -/
def sffs_unset_data_bm (fs : FS) (id : Nat) : Int × FS :=
  __sffs_set_bm fs fs.sb.s_data_bitmap_start id 0

/-- `sffs_unset_GIT_bm` (src/bitmaps.c line 30). -/
def sffs_unset_GIT_bm (fs : FS) (id : Nat) : Int × FS :=
  __sffs_set_bm fs fs.sb.s_GIT_bitmap_start id 0

/-- `sffs_check_data_bm` (src/bitmaps.c line 35). -/
def sffs_check_data_bm (fs : FS) (id : Nat) : Int × FS :=
  __sffs_check_bm fs fs.sb.s_data_bitmap_start id

/-- `sffs_check_GIT_bm` (src/bitmaps.c line 40). -/
def sffs_check_GIT_bm (fs : FS) (id : Nat) : Int × FS :=
  __sffs_check_bm fs fs.sb.s_GIT_bitmap_start id

/-- `sffs_creat_inode` (src/src/sffs.c): allocates a fresh inode-entry
buffer (malloc modelled as zero bytes) and fills the `struct sffs_inode`
header.  Packed-layout byte offsets: i_inode_num 0, i_next_entry 4,
i_list_size 8, i_last_lentry 12, i_uid_owner 16, i_gid_owner 20,
i_flags 24, i_blks_count 28, i_bytes_rem 32, i_mode 34, i_link_count 36,
t32 times 38/46/54/62 (low words; the `_ex` high words stay
uninitialized in the C and are 0 here).  The mode must have a nonzero
type nibble, else `SFFS_ERR_INVARG`. -/
def sffs_creat_inode (fs : FS) (ino_id mode flags : Nat) :
    Int × (Nat → Nat) :=
  let buf0 : Nat → Nat := fun _ => 0
  let md := Nat.land mode SFFS_IFMT >>> 12
  if md = 0 then (SFFS_ERR_INVARG, buf0)
  else
    let b := setU32 buf0 0 ino_id
    let b := setU32 b 4 0
    let b := setU16 b 36 0
    let b := setU32 b 24 flags
    let b := setU16 b 34 mode
    let b := setU32 b 28 0
    let b := setU16 b 32 0
    let b := setU32 b 16 fs.uid
    let b := setU32 b 20 fs.gid
    let b := setU32 b 8 1
    let b := setU32 b 12 ino_id
    let b := setU32 b 62 fs.now
    let b := setU32 b 54 fs.now
    let b := setU32 b 38 fs.now
    let b := setU32 b 46 fs.now
    (0, b)

/-- `sffs_write_inode` (src/src/sffs.c lines 85-121): locates the GIT slot
of the entry's inode id, reads the GIT block into the cache, overwrites
the slot with the in-memory entry bytes, writes the block back, then
unconditionally decrements `s_free_inodes_count` and finally sets the
GIT bitmap bit (whose `SFFS_ERR_FS` double-set result, being 1, is
returned as is). -/
def sffs_write_inode (fs : FS) (ino_mem : Nat → Nat) : Int × FS :=
  let ino := getU32 ino_mem 0
  let ino_entry_size := fs.sb.s_inode_block_size + fs.sb.s_inode_size
  let ino_per_block := fs.sb.s_block_size / ino_entry_size
  let git_block := ino / ino_per_block
  let block_offset := ino % ino_per_block * ino_entry_size
  let ino_block := fs.sb.s_GIT_start + git_block
  let r := sffs_read_blk fs ino_block 1 fs.cache
  if r.1 < 0 then (r.1, fs)
  else
    let fs1 : FS := { fs with cache := memcpyB r.2 block_offset ino_mem 0 ino_entry_size }
    let w := sffs_write_blk fs1 ino_block fs1.cache 1
    if w.1 < 0 then (w.1, w.2)
    else
      let fs2 : FS := { w.2 with
        sb := { w.2.sb with
          s_free_inodes_count := u32sub w.2.sb.s_free_inodes_count 1 } }
      sffs_set_GIT_bm fs2 ino

/-- `sffs_read_inode` (src/src/sffs.c lines 123-152): returns `false`(0)
when the GIT bitmap bit of `ino_id` is clear; otherwise reads the GIT
block into the cache and copies the slot's `ino_entry_size` bytes into
the caller's buffer, returning `true`(1).  The result triple carries the
error code, the updated context, and the caller buffer. -/
def sffs_read_inode (fs : FS) (ino_id : Nat) (dest : Nat → Nat) :
    Int × FS × (Nat → Nat) :=
  let c := sffs_check_GIT_bm fs ino_id
  if c.1 ≠ 0 then
    let fs1 := c.2
    let ino_entry_size := fs1.sb.s_inode_block_size + fs1.sb.s_inode_size
    let ino_per_block := fs1.sb.s_block_size / ino_entry_size
    let git_block := ino_id / ino_per_block
    let block_offset := ino_id % ino_per_block * ino_entry_size
    let ino_block := fs1.sb.s_GIT_start + git_block
    let r := sffs_read_blk fs1 ino_block 1 fs1.cache
    if r.1 < 0 then (r.1, fs1, dest)
    else
      let fs2 : FS := { fs1 with cache := r.2 }
      (1, fs2, memcpyB dest 0 fs2.cache block_offset ino_entry_size)
  else (0, c.2, dest)

/-- Result record filled by `sffs_get_data_block_info`
(`struct sffs_data_block_info`). -/
structure DbInfo where
  inode_id : Nat
  block_id : Nat
  flags : Int
  list_id : Nat
  content : Option (Nat → Nat)

/-- Default (uninitialized) `sffs_data_block_info`. -/
def dbInfo0 : DbInfo :=
  { inode_id := 0, block_id := 0, flags := 0, list_id := 0, content := none }

/-- Supplemental-chain walk of `sffs_get_data_block_info`
(`for(i = 0; i < supp_ino_id && supp_ino != 0; i++)`): each step reads
inode `supp_ino` into `buf` (on `read_inode` device failure the error
would propagate; in the model reads do not fail, and a clear GIT bit
makes `read_inode` return 0 which the C does not treat as an error, so
`buf` simply keeps its previous bytes exactly as in the C).  Returns the
final context, the final `buf`, and whether the loop body ran at least
once (i.e. whether `blk_ptr`/`blk_ino` were assigned). -/
def gdbiChain (fs : FS) (buf : Nat → Nat) (supp_ino : Nat) :
    Nat → Bool → FS × (Nat → Nat) × Bool
  | 0, assigned => (fs, buf, assigned)
  | n + 1, assigned =>
    if supp_ino = 0 then (fs, buf, assigned)
    else
      let r := sffs_read_inode fs supp_ino buf
      gdbiChain r.2.1 r.2.2 (getU32 r.2.2 4) n true

/-- `sffs_get_data_block_info` (src/src/sffs.c lines 310-399).  Note two
faithfully kept details: the `SFFS_GET_BLK_LT` flag overrides the local
`block_id`, but the primary-vs-supplemental branch tests the *original*
`block_number` argument; and if the supplemental branch's chain loop runs
zero times, the C dereferences an uninitialized pointer (modelled as
reading 0). -/
def sffs_get_data_block_info (fs : FS) (block_number flags : Nat)
    (db_info : DbInfo) (ino_mem : Nat → Nat) : Int × FS × DbInfo :=
  if getU32 ino_mem 28 < block_number then (SFFS_ERR_INVARG, fs, db_info)
  else
    let read_blk := flags ≠ 0 ∧ Nat.land flags SFFS_GET_BLK_RD = SFFS_GET_BLK_RD
    let block_id :=
      if flags ≠ 0 ∧ Nat.land flags SFFS_GET_BLK_LT = SFFS_GET_BLK_LT ∧
          getU32 ino_mem 28 ≠ 0 then
        u32sub (getU32 ino_mem 28) 1
      else block_number
    let ino_size := fs.sb.s_inode_size
    let ino_data_size := fs.sb.s_inode_block_size
    let ino_entry_size := ino_size + ino_data_size
    let pr_ino_blks := ino_data_size / 4
    let supp_ino_blks := u32sub ino_entry_size SFFS_INODE_LIST_SIZE / 4
    let cr := sffs_creat_inode fs 0 SFFS_IFREG 0
    if cr.1 < 0 then (cr.1, fs, db_info)
    else
      let buf := cr.2
      if block_number < pr_ino_blks then
        let blk_off := block_id
        let blk_ino := getU32 ino_mem 0
        let blkid := getU32 ino_mem (SFFS_INODE_SIZE + 4 * blk_off)
        let db1 : DbInfo :=
          { inode_id := blk_ino, block_id := blkid, flags := 0,
            list_id := blk_off, content := none }
        if read_blk then
          let rd := sffs_read_data_blk fs blkid 1 (fun _ => 0)
          (0, fs, { db1 with content := some rd.2 })
        else (0, fs, db1)
      else
        let block_id2 := u32sub block_id pr_ino_blks
        let supp_ino_id := block_id2 / supp_ino_blks + 1
        let blk_off := block_id2 % supp_ino_blks
        if supp_ino_id > getU32 ino_mem 8 then (SFFS_ERR_INVARG, fs, db_info)
        else
          let ch := gdbiChain fs buf (getU32 ino_mem 4) supp_ino_id false
          let fs1 := ch.1
          -- when `ch.2.2 = false` the C reads through the uninitialized
          -- `blk_ptr`/`blk_ino` (undefined behavior); modelled as 0
          let blkid := if ch.2.2 then getU32 ch.2.1 (SFFS_INODE_LIST_SIZE + 4 * blk_off) else 0
          let blk_ino := if ch.2.2 then getU32 ch.2.1 0 else 0
          let db1 : DbInfo :=
            { inode_id := blk_ino, block_id := blkid, flags := 0,
              list_id := blk_off, content := none }
          if read_blk then
            let rd := sffs_read_data_blk fs1 blkid 1 (fun _ => 0)
            (0, fs1, { db1 with content := some rd.2 })
          else (0, fs1, db1)

/-- `__get_group_bitmap` (src/src/sffs.c lines 404-436): validates the
region base, then reads the 32-bit word of group `group_bm`: it lives in
block `bm_start + group_bm / (block_size·8)` at byte offset
`(group_bm % (block_size·8)) · (blocks_per_group/8)`. -/
def __get_group_bitmap (fs : FS) (bm_start group_bm : Nat) : Int × FS × Nat :=
  if bm_start ≠ fs.sb.s_data_bitmap_start ∧ bm_start ≠ fs.sb.s_GIT_bitmap_start then
    (SFFS_ERR_INVARG, fs, 0)
  else if group_bm = fs.sb.s_data_bitmap_start ∧ group_bm > fs.sb.s_group_count then
    (SFFS_ERR_INVARG, fs, 0)
  else
    let temp := fs.sb.s_block_size * 8
    let grp_size := fs.sb.s_blocks_per_group / 8
    let blk_id := group_bm / temp
    let grp_id := group_bm % temp
    let r := sffs_read_blk fs (bm_start + blk_id) 1 fs.cache
    if r.1 < 0 then (r.1, fs, 0)
    else
      let fs1 : FS := { fs with cache := r.2 }
      (0, fs1, getU32 fs1.cache (grp_id * grp_size))

/-- `__find_block` (src/src/sffs.c): linear membership scan of the pending
block-id array. -/
def __find_block (blks : List Nat) (block : Nat) : Bool :=
  blks.contains block

/-- View of a 32-bit group word as the byte buffer that `__check_bm`
inspects through its `blk32_t *` argument (bytes past the word are out
of bounds in the C when `blocks_per_group > 32`; modelled as 0). -/
def u32Bytes (w : Nat) : Nat → Nat :=
  fun k => if k < 4 then w / 256 ^ k % 256 else 0

/-- `SFFS_MAX_MOUNT` from `include/sffs.h`. -/
def SFFS_MAX_MOUNT : Nat := 16

/-- Sequential attempt of `sffs_alloc_inode_list`
(`for(i = 0; i < size; i++)` taking `i_last_lentry + i + 1`): collects the
candidate ids, breaking out with `none` (`seq_list = false`) as soon as a
candidate's GIT bit is not clear (a negative `check` error would also land
in the `!= 0` branch). -/
def ailSeqLoop (fs : FS) (last_lentry : Nat) :
    Nat → Nat → List Nat → FS × Option (List Nat)
  | 0, _, acc => (fs, some acc)
  | fuel + 1, i, acc =>
    let next_entry := last_lentry + i + 1
    let c := sffs_check_GIT_bm fs next_entry
    if c.1 ≠ 0 then (c.2, none)
    else ailSeqLoop c.2 last_lentry fuel (i + 1) (acc ++ [next_entry])

/-- Fallback scan of `sffs_alloc_inode_list`
(`for(i = 0; i < free_inodes && allocated < size; i++)`): collects ids
whose GIT check returns `false`(0).  Note the C iterates `i` up to the
*free count*, not up to `s_inodes_count`. -/
def ailScanLoop (fs : FS) (size : Nat) :
    Nat → Nat → List Nat → FS × List Nat
  | 0, _, acc => (fs, acc)
  | fuel + 1, i, acc =>
    if acc.length < size then
      let c := sffs_check_GIT_bm fs i
      ailScanLoop c.2 size fuel (i + 1) (if c.1 = 0 then acc ++ [i] else acc)
    else (fs, acc)

/-- On-disk serialization loop of `sffs_alloc_inode_list`: writes each new
supplemental entry with `i_next_entry` chained to the next chosen id
(0 on the last). -/
def ailWriteLoop (fs : FS) (cur : Nat → Nat) (entries : List Nat)
    (size : Nat) : Nat → Nat → Int × FS × (Nat → Nat)
  | 0, _ => (0, fs, cur)
  | fuel + 1, i =>
    if i < size then
      let cur1 := setU32 cur 0 (entries.getD i 0)
      let cur2 := setU32 cur1 4 (if i + 1 = size then 0 else entries.getD (i + 1) 0)
      let w := sffs_write_inode fs cur2
      if w.1 < 0 then (w.1, w.2, cur2)
      else ailWriteLoop w.2 cur2 entries size fuel (i + 1)
    else (0, fs, cur)

/-- `alloc_done` tail of `sffs_alloc_inode_list`: serializes the new
entries, links the previous tail (or the primary) to the first new id,
updates the primary's `i_list_size`/`i_last_lentry`, writes the primary
and decrements `s_free_inodes_count` by `size`.  Returns the updated
context and primary-entry bytes. -/
def ailCommit (fs : FS) (size : Nat) (ino_mem : Nat → Nat)
    (entries : List Nat) : Int × FS × (Nat → Nat) :=
  let cr := sffs_creat_inode fs 0 SFFS_IFREG 0
  if cr.1 < 0 then (cr.1, fs, ino_mem)
  else
    let w := ailWriteLoop fs cr.2 entries size size 0
    if w.1 < 0 then (w.1, w.2.1, ino_mem)
    else
      let fs2 := w.2.1
      let cr2 := sffs_creat_inode fs2 0 SFFS_IFREG 0
      if cr2.1 < 0 then (cr2.1, fs2, ino_mem)
      else
        let step : Int × FS × (Nat → Nat) :=
          if getU32 ino_mem 12 ≠ getU32 ino_mem 0 then
            let r := sffs_read_inode fs2 (getU32 ino_mem 12) cr2.2
            if r.1 < 0 then (r.1, r.2.1, ino_mem)
            else
              let buf := setU32 r.2.2 4 (entries.getD 0 0)
              let w2 := sffs_write_inode r.2.1 buf
              if w2.1 < 0 then (w2.1, w2.2, ino_mem) else (0, w2.2, ino_mem)
          else (0, fs2, setU32 ino_mem 4 (entries.getD 0 0))
        if step.1 < 0 then step
        else
          let fs3 := step.2.1
          let im1 := step.2.2
          let im2 := setU32 im1 8 (getU32 im1 8 + size)
          let im3 := setU32 im2 12 (entries.getD (size - 1) 0)
          let w3 := sffs_write_inode fs3 im3
          if w3.1 < 0 then (w3.1, w3.2, im3)
          else
            let fs4 : FS := { w3.2 with
              sb := { w3.2.sb with
                s_free_inodes_count := u32sub w3.2.sb.s_free_inodes_count size } }
            (0, fs4, im3)

/-- `sffs_alloc_inode_list` (src/src/sffs.c lines 179-308).  Faithful
details: the scan shortfall returns `SFFS_ERR_FS` (numerically 1, which
callers checking `errc < 0` do not see as a failure), and every
`sffs_write_inode` along the way performs its unconditional free-count
decrement and GIT-bit set. -/
def sffs_alloc_inode_list (fs : FS) (size : Nat) (ino_mem : Nat → Nat) :
    Int × FS × (Nat → Nat) :=
  if size = 0 then (SFFS_ERR_INVARG, fs, ino_mem)
  else if SFFS_MAX_INODE_LIST ≠ 0 ∧
      getU32 ino_mem 8 + size > SFFS_MAX_INODE_LIST then
    (SFFS_ERR_NOSPC, fs, ino_mem)
  else if size > fs.sb.s_free_inodes_count then (SFFS_ERR_NOSPC, fs, ino_mem)
  else
    let ino := getU32 ino_mem 0
    let ino_per_block := fs.sb.s_block_size / (SFFS_INODE_SIZE + SFFS_INODE_DATA_SIZE)
    let ino_id_within_block := ino % ino_per_block
    let seqTry : FS × Option (List Nat) :=
      if ino_id_within_block + size > ino_per_block then (fs, none)
      else ailSeqLoop fs (getU32 ino_mem 12) size 0 []
    match seqTry with
    | (fs1, some entries) => ailCommit fs1 size ino_mem entries
    | (fs1, none) =>
      let sc := ailScanLoop fs1 size fs1.sb.s_free_inodes_count 0 []
      if sc.2.length < size then (SFFS_ERR_FS, sc.1, ino_mem)
      else ailCommit sc.1 size ino_mem sc.2

/-- Step-one bit scan of `sffs_alloc_data_blocks`
(`for(i = blk_off; i < grp_size && allocated < alloc_blocks; i++)`):
collects clear bits of the fetched group word as block ids
`grp_id · grp_size + i`. -/
def adbPhase1Loop (word grp_id grp_size alloc_blocks : Nat) :
    Nat → Nat → List Nat → List Nat
  | 0, _, acc => acc
  | fuel + 1, i, acc =>
    if i < grp_size ∧ acc.length < alloc_blocks then
      if __check_bm (u32Bytes word) i ≠ 0 then
        adbPhase1Loop word grp_id grp_size alloc_blocks fuel (i + 1) acc
      else
        adbPhase1Loop word grp_id grp_size alloc_blocks fuel (i + 1)
          (acc ++ [grp_id * grp_size + i])
    else acc

/-- Step-two inner loop of `sffs_alloc_data_blocks`: claims every block of
a fully free group that is not already pending. -/
def adbPhase2Inner (i bpg alloc : Nat) : Nat → Nat → List Nat → List Nat
  | 0, _, acc => acc
  | fuel + 1, k, acc =>
    if k < bpg ∧ acc.length < alloc then
      let block_id := i * bpg + k
      if __find_block acc block_id = false then
        adbPhase2Inner i bpg alloc fuel (k + 1) (acc ++ [block_id])
      else adbPhase2Inner i bpg alloc fuel (k + 1) acc
    else acc

/-- Step-two group scan of `sffs_alloc_data_blocks`: fetches each group's
word and claims whole groups whose word is 0, counting them. -/
def adbPhase2Loop (fs : FS) (alloc : Nat) :
    Nat → Nat → List Nat → Nat → Int × FS × List Nat × Nat
  | 0, _, acc, grps => (0, fs, acc, grps)
  | fuel + 1, i, acc, grps =>
    if i < fs.sb.s_group_count ∧ acc.length < alloc then
      let g := __get_group_bitmap fs fs.sb.s_data_bitmap_start i
      if g.1 < 0 then (g.1, g.2.1, acc, grps)
      else if g.2.2 = 0 then
        adbPhase2Loop g.2.1 alloc fuel (i + 1)
          (adbPhase2Inner i g.2.1.sb.s_blocks_per_group alloc
            g.2.1.sb.s_blocks_per_group 0 acc) (grps + 1)
      else adbPhase2Loop g.2.1 alloc fuel (i + 1) acc grps
    else (0, fs, acc, grps)

/-- Step-three global scan of `sffs_alloc_data_blocks`
(`for(i = 0; i < total_blocks && allocated < alloc_blocks; i++)`): claims
every block whose data-bitmap check returns 0 and which is not already
pending. -/
def adbPhase3Loop (fs : FS) (alloc : Nat) :
    Nat → Nat → List Nat → FS × List Nat
  | 0, _, acc => (fs, acc)
  | fuel + 1, i, acc =>
    if i < fs.sb.s_blocks_count ∧ acc.length < alloc then
      let c := sffs_check_data_bm fs i
      if c.1 = 0 ∧ __find_block acc i = false then
        adbPhase3Loop c.2 alloc fuel (i + 1) (acc ++ [i])
      else adbPhase3Loop c.2 alloc fuel (i + 1) acc
    else (fs, acc)

/-- Primary inline fill of the registration phase
(`while(free_blocks > 0 && written < allocated)`): stores pending ids into
`ino_mem->blks[pos]` (byte offset `SFFS_INODE_SIZE + 4·pos`). -/
def adbPrimFill (ino_mem : Nat → Nat) (new_blocks : List Nat) :
    Nat → Nat → Nat → Nat → (Nat → Nat) × Nat
  | 0, _, written, _ => (ino_mem, written)
  | fuel + 1, pos, written, free_blocks =>
    if 0 < free_blocks ∧ written < new_blocks.length then
      adbPrimFill (setU32 ino_mem (SFFS_INODE_SIZE + 4 * pos)
          (new_blocks.getD written 0)) new_blocks fuel (pos + 1)
        (written + 1) (free_blocks - 1)
    else (ino_mem, written)

/-- `memcpy(supp->blks + pos, new_blocks + written, 4·n)`: stores `n`
pending ids as little-endian words starting at byte `off` (ids past the
end of the pending array would be a C out-of-bounds read; modelled as 0). -/
def blkListCopy (buf : Nat → Nat) (off : Nat) (blks : List Nat) :
    Nat → Nat → Nat → Nat
  | _, 0 => buf
  | src, n + 1 => blkListCopy (setU32 buf off (blks.getD src 0)) (off + 4) blks (src + 1) n

/-- Supplemental-entry write loop of the registration phase
(`while(next_entry != 0 && written < allocated)`): follows the on-disk
chain, writing runs of pending ids into each entry's `blks[]`.  Two
faithfully kept C details: `next_id` is never reset to 0 after the first
entry, and the `remaining` count uses wrapping u32 subtraction.  The
chain lives on disk, so the loop gets fuel (a chain longer than the fuel
would cycle and the C would never terminate). -/
def adbSuppLoop (fs : FS) (buf : Nat → Nat) (new_blocks : List Nat)
    (supp_ino_blks next_id : Nat) :
    Nat → Nat → Nat → Int × FS × Nat
  | 0, _, written => (0, fs, written)
  | fuel + 1, next_entry, written =>
    if next_entry ≠ 0 ∧ written < new_blocks.length then
      let r := sffs_read_inode fs next_entry buf
      if r.1 < 0 then (r.1, r.2.1, written)
      else
        let remaining := u32sub new_blocks.length written
        let pos_tw : Nat × Nat :=
          if next_id ≠ 0 then (next_id, u32sub supp_ino_blks next_id)
          else if supp_ino_blks < remaining then (0, supp_ino_blks)
          else (0, remaining)
        let supp1 := blkListCopy r.2.2 (SFFS_INODE_LIST_SIZE + 4 * pos_tw.1)
          new_blocks written pos_tw.2
        let w := sffs_write_inode r.2.1 supp1
        if w.1 < 0 then (w.1, w.2, written)
        else adbSuppLoop w.2 supp1 new_blocks supp_ino_blks next_id fuel
          (getU32 supp1 4) (written + pos_tw.2)
    else (0, fs, written)

/-- Unwind loop of the bitmap-commit phase
(`for(k = 0; k < i; k++) sffs_unset_data_bm(...)`): clears, in order, the
bits already set in this commit and then surfaces the original error. -/
def adbUnwind (fs : FS) (orig : Int) : List Nat → Int × FS
  | [] => (orig, fs)
  | k :: rest =>
    let u := sffs_unset_data_bm fs k
    if u.1 < 0 then (u.1, u.2)
    else adbUnwind u.2 orig rest

/-- Bitmap-commit phase of `sffs_alloc_data_blocks` (src/src/sffs.c lines
714-732): walks the pending list setting each data-bitmap bit; if a set
returns a negative error the already-set prefix is unwound via
`sffs_unset_data_bm` and the original error returned.  `done` is the
prefix set so far (call with `[]`). -/
def sffs_alloc_commit (fs : FS) (done : List Nat) : List Nat → Int × FS
  | [] => (0, fs)
  | b :: bs =>
    let s := sffs_set_data_bm fs b
    if s.1 < 0 then adbUnwind s.2 s.1 done
    else sffs_alloc_commit s.2 (done ++ [b]) bs

/-- `alloc_done` registration tail of `sffs_alloc_data_blocks` (lines
640-736): re-resolves the last-block coordinates, fills the primary's
inline area, walks the supplemental chain, updates `i_blks_count` and the
superblock free counters, writes the primary, and runs the bitmap-commit
phase. -/
def adbFinish (fs : FS) (ino_mem : Nat → Nat) (new_blocks : List Nat)
    (allocated_grps last_entry pr_inode_blks supp_ino_blks : Nat) :
    Int × FS × (Nat → Nat) :=
  let g := sffs_get_data_block_info fs 0 SFFS_GET_BLK_LT dbInfo0 ino_mem
  if g.1 < 0 then (g.1, g.2.1, ino_mem)
  else
    let fs1 := g.2.1
    let last_info := g.2.2
    let prim : (Nat → Nat) × Nat :=
      if last_info.inode_id = getU32 ino_mem 0 then
        let free_blocks := u32sub pr_inode_blks (getU32 ino_mem 28)
        adbPrimFill ino_mem new_blocks new_blocks.length
          (u32sub pr_inode_blks free_blocks) 0 free_blocks
      else (ino_mem, 0)
    let cr := sffs_creat_inode fs1 0 SFFS_IFREG 0
    if cr.1 < 0 then (cr.1, fs1, prim.1)
    else
      let sl := adbSuppLoop fs1 cr.2 new_blocks supp_ino_blks
        last_info.list_id (fs1.sb.s_inodes_count + 1) last_entry prim.2
      if sl.1 < 0 then (sl.1, sl.2.1, prim.1)
      else
        let fs2 := sl.2.1
        let im2 := setU32 prim.1 28 (getU32 prim.1 28 + new_blocks.length)
        let fs3 : FS := { fs2 with
          sb := { fs2.sb with
            s_free_blocks_count := u32sub fs2.sb.s_free_blocks_count new_blocks.length,
            s_free_groups := u32sub fs2.sb.s_free_groups allocated_grps } }
        let w := sffs_write_inode fs3 im2
        if w.1 < 0 then (w.1, w.2, im2)
        else
          let cm := sffs_alloc_commit w.2 [] new_blocks
          (cm.1, cm.2, im2)

/-- `sffs_alloc_data_blocks` (src/src/sffs.c lines 449-737): preallocation
sizing, optional inode-list growth, the three allocation phases, and the
registration/commit tail.  The `goto`-driven phases are expressed as the
ordered phase functions above; each phase is skipped once the pending
list reaches `alloc_blocks`. -/
def sffs_alloc_data_blocks (fs : FS) (blk_count : Nat) (ino_mem : Nat → Nat) :
    Int × FS × (Nat → Nat) :=
  let mode := getU16 ino_mem 34
  let prealloc :=
    if SFFS_ISREG mode then fs.sb.s_prealloc_blocks
    else if SFFS_ISDIR mode then fs.sb.s_prealloc_dir_blocks
    else 0
  let alloc_try := blk_count + prealloc
  if alloc_try > fs.sb.s_free_blocks_count ∧
      blk_count > fs.sb.s_free_blocks_count then
    (SFFS_ERR_NOSPC, fs, ino_mem)
  else
    let alloc_blocks :=
      if alloc_try > fs.sb.s_free_blocks_count then blk_count else alloc_try
    let ino_entry_size := fs.sb.s_inode_size + fs.sb.s_inode_block_size
    let pr_inode_blks := fs.sb.s_inode_block_size / 4
    let supp_ino_blks := u32sub ino_entry_size SFFS_INODE_LIST_SIZE / 4
    let supp_ino_max_blks := u32sub (getU32 ino_mem 8) 1 * supp_ino_blks
    let free_blks := u32sub (pr_inode_blks + supp_ino_max_blks) (getU32 ino_mem 28)
    let growth : Int × FS × (Nat → Nat) × Nat :=
      if free_blks < alloc_blocks then
        let clear_blks := u32sub alloc_blocks free_blks
        let supp_inodes :=
          clear_blks / supp_ino_blks +
            (if clear_blks % supp_ino_blks ≠ 0 then 1 else 0)
        let al := sffs_alloc_inode_list fs supp_inodes ino_mem
        if al.1 < 0 then (al.1, al.2.1, al.2.2, 0)
        else (0, al.2.1, al.2.2, getU32 al.2.2 4)
      else (0, fs, ino_mem, getU32 ino_mem 12)
    if growth.1 < 0 then (growth.1, growth.2.1, growth.2.2.1)
    else
      let fs1 := growth.2.1
      let im1 := growth.2.2.1
      let last_entry := growth.2.2.2
      -- step one
      let g1 := sffs_get_data_block_info fs1 0 SFFS_GET_BLK_LT dbInfo0 im1
      if g1.1 < 0 then (g1.1, g1.2.1, im1)
      else
        let fs2 := g1.2.1
        let last_ino_info := g1.2.2
        let free_spots :=
          if last_ino_info.inode_id ≠ getU32 im1 0 then
            u32sub supp_ino_blks last_ino_info.list_id
          else u32sub pr_inode_blks last_ino_info.list_id
        let p1 : Int × FS × List Nat :=
          if free_spots = 0 ∨ getU32 im1 28 = 0 then (0, fs2, [])
          else
            let grp_id := last_ino_info.block_id / fs2.sb.s_blocks_per_group
            let blk_off0 := last_ino_info.block_id % fs2.sb.s_blocks_per_group
            let gb := __get_group_bitmap fs2 fs2.sb.s_data_bitmap_start grp_id
            if gb.1 < 0 then (gb.1, gb.2.1, [])
            else
              let grp_size := gb.2.1.sb.s_blocks_per_group
              let blk_off := if getU32 im1 28 = 0 then 0 else blk_off0 + 1
              (0, gb.2.1,
                adbPhase1Loop gb.2.2 grp_id grp_size alloc_blocks grp_size blk_off [])
        if p1.1 < 0 then (p1.1, p1.2.1, im1)
        else if p1.2.2.length = alloc_blocks then
          adbFinish p1.2.1 im1 p1.2.2 0 last_entry pr_inode_blks supp_ino_blks
        else
          -- step two
          let p2 : Int × FS × List Nat × Nat :=
            if p1.2.1.sb.s_free_groups = 0 then (0, p1.2.1, p1.2.2, 0)
            else adbPhase2Loop p1.2.1 alloc_blocks p1.2.1.sb.s_group_count 0 p1.2.2 0
          if p2.1 < 0 then (p2.1, p2.2.1, im1)
          else if p2.2.2.1.length = alloc_blocks then
            adbFinish p2.2.1 im1 p2.2.2.1 p2.2.2.2 last_entry pr_inode_blks supp_ino_blks
          else
            -- step three
            let p3 := adbPhase3Loop p2.2.1 alloc_blocks p2.2.1.sb.s_blocks_count 0 p2.2.2.1
            if p3.2.length ≠ alloc_blocks then (SFFS_ERR_FS, p3.1, im1)
            else adbFinish p3.1 im1 p3.2 p2.2.2.2 last_entry pr_inode_blks supp_ino_blks

/-- In-memory directory record (`struct sffs_direntry`): inode id, record
length, file type, and the name bytes (no NUL terminator on disk).  The
name bytes are conventionally nonzero (C string content). -/
structure Direntry where
  ino_id : Nat
  rec_len : Nat
  file_type : Nat
  name : List Nat

/-- Byte image of a directory record: `ino_id` at 0 (LE u32), `rec_len` at
4 (LE u16), `file_type` at 6 (LE u16), name from byte 8.  Bytes past the
name (when `rec_len > 8 + length`) are unallocated heap in the C;
modelled as 0. -/
def direntryBytes (d : Direntry) : Nat → Nat :=
  fun j =>
    if j < 4 then d.ino_id / 256 ^ j % 256
    else if j = 4 then d.rec_len % 256
    else if j = 5 then d.rec_len / 256 % 256
    else if j = 6 then d.file_type % 256
    else if j = 7 then d.file_type / 256 % 256
    else d.name.getD (j - 8) 0 % 256

/-- `strcmp(buf->name, path) == 0` where `buf->name` holds `n` record name
bytes with a NUL forced at index `n` (`buf->name[name_len] = 0` in
`sffs_lookup_direntry`), and `path` is the NUL-terminated search name
given as its list of (nonzero) content bytes. -/
def strcmpZ (b : Nat → Nat) : Nat → Nat → List Nat → Bool
  | _, 0, [] => true
  | _, 0, _ :: _ => false
  | off, _ + 1, [] => getU8 b off == 0
  | off, m + 1, c :: cs =>
    if getU8 b off == 0 then false
    else getU8 b off == c % 256 && strcmpZ b (off + 1) m cs

/-- Record walk of one directory block in `sffs_lookup_direntry`
(`do { ... } while(accum_rec < block_size)`): returns `some accum_rec` at
the first name match.  `accum_rec` is a C `u16_t` and wraps accordingly.
A zero `rec_len` record would make the C loop forever; the fuel
`block_size + 1` can only be exhausted in that degenerate case. -/
def lookupWalk (content : Nat → Nat) (path : List Nat) (B : Nat) :
    Nat → Nat → Nat → Option Nat
  | 0, _, _ => none
  | fuel + 1, pos, accum =>
    let rec_len := getU16 content (pos + 4)
    -- name_len = rec_len - SFFS_DIRENTRY_LENGTH (a `size_t`; for
    -- rec_len < 8 the C underflows to a huge memcpy length - undefined
    -- behavior - here the Nat subtraction truncates to 0)
    let name_len := rec_len - SFFS_DIRENTRY_LENGTH
    if strcmpZ content (pos + 8) name_len path then some accum
    else
      let accum1 := (accum + rec_len) % 65536
      if accum1 < B then lookupWalk content path B fuel (pos + rec_len) accum1
      else none

/-- Per-block loop of `sffs_lookup_direntry`
(`for(i = 0; i < ino_blocks; i++)` with `break` on a match): fetches each
block with `SFFS_GET_BLK_RD` and walks its records. -/
def lookupBlocks (fs : FS) (ino_mem : Nat → Nat) (path : List Nat) :
    Nat → Nat → Int × FS
  | 0, _ => (0, fs)
  | fuel + 1, i =>
    let g := sffs_get_data_block_info fs i SFFS_GET_BLK_RD dbInfo0 ino_mem
    if g.1 < 0 then (g.1, g.2.1)
    else
      let content := g.2.2.content.getD (fun _ => 0)
      match lookupWalk content path g.2.1.sb.s_block_size
          (g.2.1.sb.s_block_size + 1) 0 0 with
      | some _ => (1, g.2.1)
      | none => lookupBlocks g.2.1 ino_mem path fuel (i + 1)

/-- `sffs_lookup_direntry` (src/src/sffs_direntry.c lines 106-189):
refuses non-directory parents, sweeps every parent block, and returns
`exist` (1 found / 0 not found).  The optional out-parameters
(`*direntry`, `*info`) are filled from the same walk state and do not
affect the context; no embedded claim observes them, so they are not
modelled. -/
def sffs_lookup_direntry (fs : FS) (parent : Nat → Nat) (path : List Nat) :
    Int × FS :=
  if ¬ SFFS_ISDIR (getU16 parent 34) then (SFFS_ERR_INVARG, fs)
  else lookupBlocks fs parent path (getU32 parent 28) 0

/-- Record walk of one directory block in `sffs_add_direntry`
(`do { ... } while(accum_rec < block_size)` with
`break` on a zero-ino record whose `rec_len` admits the new record):
returns the final `(accum_rec, record offset d)`. -/
def addWalk (content : Nat → Nat) (dlen B : Nat) :
    Nat → Nat → Nat → Nat × Nat
  | 0, pos, accum => (accum, pos)
  | fuel + 1, pos, accum =>
    let rec_len := getU16 content (pos + 4)
    if rec_len ≥ dlen ∧ getU32 content pos = 0 then (accum, pos)
    else
      let accum1 := (accum + rec_len) % 65536
      if accum1 < B then addWalk content dlen B fuel (pos + rec_len) accum1
      else (accum1, pos)

/-- Per-block sweep of `sffs_add_direntry` (`for(i = 0; i < ino_blocks;
i++)`): note the C never breaks out of this outer loop, so the walk state
(`db_info`, `accum_rec`, `d`) that survives is the last block's.  When the
parent has no blocks the loop body never runs and the C later reads the
uninitialized `d` (undefined behavior); the initial accumulator values
passed in model those uninitialized reads as 0. -/
def addBlocksLoop (fs : FS) (parent : Nat → Nat) (dlen : Nat) :
    Nat → Nat → DbInfo → Nat → Nat → Int × FS × DbInfo × Nat × Nat
  | 0, _, db, accum, doff => (0, fs, db, accum, doff)
  | fuel + 1, i, db, accum, doff =>
    let g := sffs_get_data_block_info fs i SFFS_GET_BLK_RD db parent
    if g.1 < 0 then (g.1, g.2.1, g.2.2, accum, doff)
    else
      let content := g.2.2.content.getD (fun _ => 0)
      let w := addWalk content dlen g.2.1.sb.s_block_size
        (g.2.1.sb.s_block_size + 1) 0 0
      addBlocksLoop g.2.1 parent dlen fuel (i + 1) g.2.2 w.1 w.2

/-- Common insertion tail of `sffs_add_direntry`: copies the record at
`accum_rec`, appends a shrunken zero-ino terminator absorbing the rest of
the block, and writes the block back through the data-region writer. -/
def addInsert (fs : FS) (parent : Nat → Nat) (direntry : Direntry)
    (db : DbInfo) (content : Nat → Nat) (accum : Nat) :
    Int × FS × (Nat → Nat) :=
  let content1 := memcpyB content accum (direntryBytes direntry) 0 direntry.rec_len
  let accum1 := (accum + direntry.rec_len) % 65536
  let term : Direntry :=
    { ino_id := 0, rec_len := u16sub fs.sb.s_block_size accum1,
      file_type := 0, name := [] }
  let content2 := memcpyB content1 accum1 (direntryBytes term) 0 SFFS_DIRENTRY_LENGTH
  let wd := sffs_write_data_blk fs db.block_id content2 1
  if wd.1 < 0 then (wd.1, wd.2, parent) else (0, wd.2, parent)

/-- `sffs_add_direntry` (src/src/sffs_direntry.c lines 191-302): refuses
oversized records, refuses duplicates via `sffs_lookup_direntry`
(`errc == 1` ⇒ `SFFS_ERR_ENTEXIS`), sweeps the parent's blocks for a
fitting zero-ino slot, appends a fresh data block (initialized with a
full-block terminator) when none fits, then inserts the record.  Returns
the error code, updated context, and the (possibly grown) parent entry. -/
def sffs_add_direntry (fs : FS) (parent : Nat → Nat) (direntry : Direntry) :
    Int × FS × (Nat → Nat) :=
  if direntry.rec_len > SFFS_MAX_DIR_ENTRY then (SFFS_ERR_INVARG, fs, parent)
  else
    let lk := sffs_lookup_direntry fs parent direntry.name
    if lk.1 = 1 then (SFFS_ERR_ENTEXIS, lk.2, parent)
    else if lk.1 < 0 then (lk.1, lk.2, parent)
    else
      let bl := addBlocksLoop lk.2 parent direntry.rec_len (getU32 parent 28) 0
        dbInfo0 0 0
      if bl.1 < 0 then (bl.1, bl.2.1, parent)
      else
        let fs1 := bl.2.1
        let db := bl.2.2.1
        let accum := bl.2.2.2.1
        let doff := bl.2.2.2.2
        let content := db.content.getD (fun _ => 0)
        let d_rec_len := getU16 content (doff + 4)
        if d_rec_len < direntry.rec_len ∨ d_rec_len = fs1.sb.s_block_size then
          let al := sffs_alloc_data_blocks fs1 1 parent
          if al.1 < 0 then (al.1, al.2.1, al.2.2)
          else
            let fs2 := al.2.1
            let parent1 := al.2.2
            let g := sffs_get_data_block_info fs2 0
              (Nat.lor SFFS_GET_BLK_LT SFFS_GET_BLK_RD) db parent1
            if g.1 < 0 then (g.1, g.2.1, parent1)
            else
              let db2 := g.2.2
              let content2 := db2.content.getD (fun _ => 0)
              let term0 : Direntry :=
                { ino_id := 0, rec_len := g.2.1.sb.s_block_size % 65536,
                  file_type := 0, name := [] }
              let content3 := memcpyB content2 0 (direntryBytes term0) 0
                SFFS_DIRENTRY_LENGTH
              let wd := sffs_write_data_blk g.2.1 db2.block_id content3 1
              if wd.1 < 0 then (wd.1, wd.2, parent1)
              else addInsert wd.2 parent1 direntry db2 content3 0
        else addInsert fs1 parent direntry db content accum

/-- `__sffs_init` superblock computation (src/utils/sffs_mkfs.c lines
31-124): derives the region sizes and counts from the requested volume
size and block size and fills a fresh superblock (the on-disk
serialization at byte 1024 and the tautological `result != total_blocks`
self-check are also reflected in the returned error code; `now` is the
`time(NULL)` value stored into the 16-bit mount/write time fields).
All `blk32_t` arithmetic wraps mod 2^32 as in the C. -/
def __sffs_init (fs_size block_size now : Nat) : Int × Superblock :=
  let sb_start := if 1024 + SFFS_SB_SIZE > block_size then 1 else 0
  let resv_inodes := SFFS_RESV_INODES
  let total_blocks := u32sub (fs_size / block_size) resv_inodes
  let total_inodes := total_blocks * block_size % 4294967296 / SFFS_INODE_RATIO
  let GIT_size_blks := total_inodes / (block_size / (SFFS_INODE_SIZE * 2)) + 1
  let GIT_bitmap_bytes := total_inodes / 8 + 1
  let GIT_bitmap_blks := GIT_bitmap_bytes / block_size + 1
  let meta_blks := (sb_start + 1 + GIT_bitmap_blks + GIT_size_blks) % 4294967296
  let data_blocks0 := u32sub total_blocks meta_blks
  let data_bitmap_bytes := data_blocks0 / 8 + 1
  let data_bitmap_blks := data_bitmap_bytes / block_size + 1
  let data_blocks := u32sub data_blocks0 data_bitmap_blks
  let grp_size_blks := SFFS_INODE_DATA_SIZE / 4
  let total_inodes2 := data_blocks / grp_size_blks
  let result := (meta_blks + data_bitmap_blks + data_blocks) % 4294967296
  let sb : Superblock :=
    { s_inodes_count := total_inodes2
      s_inodes_reserved := 0
      s_blocks_count := data_blocks
      s_free_blocks_count := data_blocks
      s_free_inodes_count := total_inodes2
      s_block_size := block_size
      s_blocks_per_group := grp_size_blks
      s_group_count := total_inodes2
      s_free_groups := total_inodes2
      s_mount_time := 0
      s_write_time := now % 65536
      s_mount_count := now % 65536
      s_max_mount_count := SFFS_MAX_MOUNT
      s_state := 0
      s_error := 0
      s_inode_size := SFFS_INODE_SIZE
      s_inode_block_size := SFFS_INODE_DATA_SIZE
      s_magic := SFFS_MAGIC
      s_max_inode_list := SFFS_MAX_INODE_LIST
      s_features := 0
      s_prealloc_blocks := 0
      s_prealloc_dir_blocks := 0
      s_data_bitmap_start := sb_start + 1
      s_data_bitmap_size := data_bitmap_blks
      s_first_data_block := 0
      s_GIT_bitmap_start := sb_start + 1 + data_bitmap_blks
      s_GIT_bitmap_size := GIT_bitmap_blks
      s_GIT_start := sb_start + 1 + data_bitmap_blks + GIT_bitmap_blks
      s_GIT_size := GIT_size_blks }
  ((if result ≠ total_blocks then SFFS_ERR_INIT else 0), sb)

/-- Small valid superblock for bitmap-level scenarios: block size 8, data
bitmap at block 2, GIT bitmap at block 3, GIT at block 4. -/
def sbBM : Superblock :=
  { s_inodes_count := 16, s_inodes_reserved := 0, s_blocks_count := 16,
    s_free_blocks_count := 16, s_free_inodes_count := 16, s_block_size := 8,
    s_blocks_per_group := 32, s_group_count := 1, s_free_groups := 1,
    s_mount_time := 0, s_write_time := 0, s_mount_count := 0,
    s_max_mount_count := 16, s_state := 0, s_error := 0, s_inode_size := 128,
    s_inode_block_size := 128, s_magic := SFFS_MAGIC, s_max_inode_list := 32,
    s_features := 0, s_prealloc_blocks := 0, s_prealloc_dir_blocks := 0,
    s_data_bitmap_start := 2, s_data_bitmap_size := 1, s_first_data_block := 0,
    s_GIT_bitmap_start := 3, s_GIT_bitmap_size := 1, s_GIT_start := 4,
    s_GIT_size := 1 }

/-- Context over `sbBM` with an all-zero disk. -/
def fsBM : FS :=
  { sb := sbBM, disk := fun _ _ => 0, cache := fun _ => 0,
    uid := 0, gid := 0, now := 0 }

/-- Context whose GIT-bitmap block (block 3) already has bit 1 set, the
state in which the commit loop's second `sffs_set_data_bm` hits the
double-set branch. -/
def fsC2 : FS :=
  { fsBM with disk := fun b j => if b = 3 ∧ j = 0 then 2 else 0 }

/-- Context whose data-bitmap block (block 2) has bit 0 set. -/
def fsC3 : FS :=
  { fsBM with disk := fun b j => if b = 2 ∧ j = 0 then 1 else 0 }

/-- Superblock for the bit-addressing scenario: block size 1024, data
bitmap at block 2. -/
def sbC5 : Superblock :=
  { sbBM with s_block_size := 1024 }

/-- Context whose data-bitmap region holds 0xFF in byte 128 of its first
block - the byte where the spec's mapping (byte `id/8` of the region,
block `id/(B·8)`) places bits 1024..1031. -/
def fsC5 : FS :=
  { sb := sbC5, disk := fun b j => if b = 2 ∧ j = 128 then 255 else 0,
    cache := fun _ => 0, uid := 0, gid := 0, now := 0 }

/-- Superblock for the resolver scenario: block size 1024, inode entry
size 256 (so P = 32 inline slots and S = 62 supplemental slots), GIT
bitmap at block 3, GIT at block 4. -/
def sbC7 : Superblock :=
  { sbBM with
    s_block_size := 1024
    s_blocks_count := 64
    s_free_blocks_count := 64
    s_GIT_size := 2 }

/-- Disk for the resolver scenario: GIT bitmap bit 5 set; GIT entry 5
(block `4 + 5/4 = 5`, offset `(5 % 4)·256 = 256`) is a supplemental list
entry with `i_inode_num = 5`, `i_next_entry = 0`, `blks[0] = 777`. -/
def diskC7 : Nat → Nat → Nat := fun b j =>
  if b = 3 ∧ j = 0 then 32
  else if b = 5 ∧ j = 256 then 5
  else if b = 5 ∧ j = 264 then 9
  else if b = 5 ∧ j = 265 then 3
  else 0

/-- Context for the resolver scenario. -/
def fsC7 : FS :=
  { sb := sbC7, disk := diskC7, cache := fun _ => 0, uid := 0, gid := 0, now := 0 }

/-- Primary inode entry for the resolver scenario: id 1, `i_next_entry`
5, `i_list_size` 2, `i_last_lentry` 5, `i_blks_count` 33 = P + 1; byte
256 is the first byte past the entry's 256 in-memory bytes (heap slot
value 111), which is exactly where the buggy inline read lands. -/
def inoC7 : Nat → Nat :=
  setU32 (setU32 (setU32 (setU32 (setU32 (setU32 (fun _ => 0)
    0 1) 4 5) 8 2) 12 5) 28 33) 256 111

/-- Superblock for the write-inode scenario: block size 16, inode entry
size 8 (header 4 + inline 4), GIT bitmap at block 2, GIT at block 4,
10 free inodes. -/
def sbC8 : Superblock :=
  { sbBM with
    s_block_size := 16
    s_free_inodes_count := 10
    s_inode_size := 4
    s_inode_block_size := 4
    s_GIT_bitmap_start := 2
    s_GIT_start := 4
    s_GIT_size := 2 }

/-- Context whose GIT bitmap already has bit 1 set (inode 1 exists). -/
def fsC8 : FS :=
  { sb := sbC8, disk := fun b j => if b = 2 ∧ j = 0 then 2 else 0,
    cache := fun _ => 0, uid := 0, gid := 0, now := 0 }

/-- Inode entry bytes with id 1 for the write-inode scenario. -/
def inoC8 : Nat → Nat := fun j =>
  if j = 0 then 1 else if j < 4 then 0 else
  if j = 4 then 9 else if j = 5 then 8 else if j = 6 then 7 else
  if j = 7 then 6 else 0

def bmReadCache (fs : FS) (bm id : Nat) : Nat → Nat :=
  devReadInto fs.disk fs.sb.s_block_size (bm + id / fs.sb.s_block_size)
    (1 * fs.sb.s_block_size) fs.cache

def bmSetCache (fs : FS) (bm id : Nat) : Nat → Nat :=
  setU8 (bmReadCache fs bm id) (id % fs.sb.s_block_size / 8)
    (Nat.lor (getU8 (bmReadCache fs bm id) (id % fs.sb.s_block_size / 8))
      (2 ^ (id % fs.sb.s_block_size % 8)))

def wiGitBlk (fs : FS) (x : Nat → Nat) : Nat :=
  fs.sb.s_GIT_start + getU32 x 0 /
    (fs.sb.s_block_size / (fs.sb.s_inode_block_size + fs.sb.s_inode_size))

def wiOff (fs : FS) (x : Nat → Nat) : Nat :=
  getU32 x 0 % (fs.sb.s_block_size / (fs.sb.s_inode_block_size + fs.sb.s_inode_size)) *
    (fs.sb.s_inode_block_size + fs.sb.s_inode_size)

def wiCacheW (fs : FS) (x : Nat → Nat) : Nat → Nat :=
  memcpyB (devReadInto fs.disk fs.sb.s_block_size (wiGitBlk fs x)
    (1 * fs.sb.s_block_size) fs.cache) (wiOff fs x) x 0
    (fs.sb.s_inode_block_size + fs.sb.s_inode_size)

def wiFs1 (fs : FS) (x : Nat → Nat) : FS :=
  { sb := { fs.sb with s_free_inodes_count := u32sub fs.sb.s_free_inodes_count 1 }
    disk := writeBytesD fs.disk fs.sb.s_block_size (wiGitBlk fs x) (wiCacheW fs x)
      (1 * fs.sb.s_block_size)
    cache := wiCacheW fs x
    uid := fs.uid
    gid := fs.gid
    now := fs.now }

def riGitBlk (fs : FS) (ino_id : Nat) : Nat :=
  fs.sb.s_GIT_start + ino_id /
    (fs.sb.s_block_size / (fs.sb.s_inode_block_size + fs.sb.s_inode_size))

def riOff (fs : FS) (ino_id : Nat) : Nat :=
  ino_id % (fs.sb.s_block_size / (fs.sb.s_inode_block_size + fs.sb.s_inode_size)) *
    (fs.sb.s_inode_block_size + fs.sb.s_inode_size)

def riCache (fs : FS) (ino_id : Nat) : Nat → Nat :=
  devReadInto fs.disk fs.sb.s_block_size (riGitBlk fs ino_id)
    (1 * fs.sb.s_block_size) (bmReadCache fs fs.sb.s_GIT_bitmap_start ino_id)

def wiFsW (fs : FS) (x : Nat → Nat) : FS :=
  { wiFs1 fs x with
    disk := writeBytesD (wiFs1 fs x).disk fs.sb.s_block_size
      (fs.sb.s_GIT_bitmap_start + getU32 x 0 / fs.sb.s_block_size)
      (bmSetCache (wiFs1 fs x) fs.sb.s_GIT_bitmap_start (getU32 x 0))
      (1 * fs.sb.s_block_size)
    cache := bmSetCache (wiFs1 fs x) fs.sb.s_GIT_bitmap_start (getU32 x 0) }

def sbC9 : Superblock :=
  { sbC5 with
    s_block_size := 1024
    s_inode_size := 128
    s_inode_block_size := 128
    s_data_bitmap_start := 2
    s_data_bitmap_size := 1
    s_GIT_bitmap_start := 3
    s_GIT_bitmap_size := 1
    s_GIT_start := 4
    s_GIT_size := 1 }

def diskC9 : Nat → Nat → Nat := fun b j =>
  if b = 5 then
    if j = 0 then 1 else if j = 4 then 9 else if j = 6 then 1 else
    if j = 8 then 46 else
    if j = 9 then 1 else if j = 13 then 10 else if j = 15 then 1 else
    if j = 17 then 46 else if j = 18 then 46 else
    if j = 19 then 2 else if j = 23 then 9 else if j = 25 then 1 else
    if j = 27 then 97 else
    if j = 32 then 228 else if j = 33 then 3 else 0
  else 0

def fsC9 : FS :=
  { sb := sbC9
    disk := diskC9
    cache := fun _ => 0
    uid := 0
    gid := 0
    now := 0 }

def parentC9 : Nat → Nat := fun j =>
  if j = 28 then 1 else if j = 34 then 237 else if j = 35 then 65 else
  if j = 128 then 1 else 0

def dirC9 : Direntry :=
  { ino_id := 2, rec_len := 9, file_type := 1, name := [97] }

/-- Superblock for the round-trip scenario: block size 16, inode entry
4 + 4 bytes (two entries per GIT block), GIT bitmap at block 2, GIT
region from block 4. -/
def sbRT : Superblock :=
  { sbC5 with
    s_block_size := 16
    s_inode_size := 4
    s_inode_block_size := 4
    s_data_bitmap_start := 1
    s_data_bitmap_size := 1
    s_GIT_bitmap_start := 2
    s_GIT_bitmap_size := 1
    s_GIT_start := 4
    s_GIT_size := 2 }

/-- Round-trip context: `sbRT` over an all-zero disk. -/
def fsRT : FS :=
  { sb := sbRT
    disk := fun _ _ => 0
    cache := fun _ => 0
    uid := 0
    gid := 0
    now := 0 }

/-- In-memory inode entry for the round-trip scenario: inode id 1,
entry payload bytes 9, 8, 7, 6. -/
def xRT : Nat → Nat := fun j =>
  if j = 0 then 1 else if j = 4 then 9 else if j = 5 then 8 else
  if j = 6 then 7 else if j = 7 then 6 else 0

/-- C1: for every context and bitmap id, `sffs_set_data_bm` and
`sffs_set_GIT_bm` are the very same operation - both perform their
read-modify-write against the region starting at `s_GIT_bitmap_start`
(src/bitmaps.c lines 17 and 22), so the data-bitmap setter never touches
the data-bitmap region and the two setters always address the same
region base, contradicting the claimed region split. -/
theorem sffs_set_data_bm_eq_set_GIT_bm :
    ∀ (fs : FS) (id : Nat), sffs_set_data_bm fs id = sffs_set_GIT_bm fs id :=
  fun _ _ => rfl

/-- C2: the bitmap-commit phase does not unwind.  In `fsC2` the bit
targeted by the second pending block (id 1) is already 1, so that
`__set_bm` step fails with `SFFS_ERR_FS` (first conjunct); but since
`SFFS_ERR_FS = 1` the `errc < 0` test in the commit loop does not fire:
the commit returns 0 instead of surfacing the error (second conjunct),
and the bit set for pending block 0 in this commit is left set rather
than cleared (third conjunct: both bits remain set in the targeted
block). -/
theorem sffs_alloc_commit_swallows_set_failure :
    (__set_bm ((sffs_set_data_bm fsC2 0).2.cache) 1 1).1 = SFFS_ERR_FS ∧
    (sffs_alloc_commit fsC2 [] [0, 1]).1 = 0 ∧
    getU8 ((sffs_alloc_commit fsC2 [] [0, 1]).2.disk 3) 0 = 3 := by
  refine ⟨by decide, by decide, by decide⟩

/-- C3: clearing a set bit does not succeed as claimed: `__set_bm` takes
its `SFFS_ERR_FS` branch whenever the bit is already 1, for unset as well
as for set, so `sffs_unset_data_bm` on a set bit leaves the bit at 1
(second and third conjuncts) while its inner helper reports the
`SFFS_ERR_FS` failure (fourth conjunct; the wrapper's `errc < 0` test
misses it, first conjunct's returned 1). -/
theorem sffs_unset_data_bm_cannot_clear_set_bit :
    (sffs_unset_data_bm fsC3 0).1 = 1 ∧
    getU8 ((sffs_unset_data_bm fsC3 0).2.disk 2) 0 = 1 ∧
    (sffs_check_data_bm (sffs_unset_data_bm fsC3 0).2 0).1 = 1 ∧
    (__set_bm (fsC3.disk 2) 0 0).1 = SFFS_ERR_FS := by
  refine ⟨by decide, by decide, by decide, by decide⟩

/-- C4: a set operation's return value does not discriminate the
double-set corruption case.  On the all-zero `fsBM` the first
`sffs_set_data_bm 0` acts on a clear bit yet its result already equals
`SFFS_ERR_FS` numerically (the enum gives `SFFS_ERR_FS = 1`, the same
value as boolean `true`), refuting "returns ErrFs only if the bit was
already 1"; the second call hits the genuinely set bit, whose
`SFFS_ERR_FS` from `__set_bm` is swallowed by the wrapper's `errc < 0`
test, so it returns the identical value 1 - the claimed distinguishable
`Fs` failure never reaches the caller. -/
theorem sffs_set_data_bm_double_set_indistinguishable :
    (sffs_set_data_bm fsBM 0).1 = SFFS_ERR_FS ∧
    (sffs_set_data_bm (sffs_set_data_bm fsBM 0).2 0).1 = SFFS_ERR_FS ∧
    (__set_bm ((sffs_set_data_bm fsBM 0).2.cache) 0 1).1 = SFFS_ERR_FS ∧
    SFFS_ERR_FS = 1 := by
  refine ⟨by decide, by decide, by decide, rfl⟩

/-- C5: the helpers do not locate bit `id` in byte `id/8` of the region.
For `id = 1024`, `B = 1024` the spec's location is block
`2 + 1024/(1024·8) = 2`, byte `1024/8 = 128`, bit `1024 % 8 = 0`, and
that bit is set in `fsC5` (first conjunct); but `__sffs_check_bm`
computes block `id / B` and within-block bit `id % B`, so
`sffs_check_data_bm` reads block 3, byte 0 and reports the bit clear
(second conjunct).  The third conjunct pins the code's deviating
location: the byte inspected lives in block `2 + 1024/1024 = 3`. -/
theorem sffs_check_data_bm_wrong_byte_location :
    Nat.testBit (getU8 (fsC5.disk (fsC5.sb.s_data_bitmap_start + 1024 / (1024 * 8))) (1024 / 8)) (1024 % 8) = true ∧
    (sffs_check_data_bm fsC5 1024).1 = 0 ∧
    fsC5.sb.s_data_bitmap_start + 1024 / fsC5.sb.s_block_size = 3 := by
  refine ⟨by decide, by decide, by decide⟩

/-- C7: with `block_index 0` and `SFFS_GET_BLK_LT`, the resolver does not
follow the supplemental chain for `i_blks_count - 1 = 32 ≥ P = 32`: the
branch tests the un-overridden `block_number` argument (0 < P), so it
reports the primary's inode id 1 with slot 32 and reads the inline area
one slot past its end (conjuncts 1-4), instead of supplemental entry 5,
slot 0, block 777 - which is exactly what the same resolver returns when
asked for block index 32 directly (conjuncts 5-7). -/
theorem sffs_get_data_block_info_LT_ignores_override :
    (sffs_get_data_block_info fsC7 0 SFFS_GET_BLK_LT dbInfo0 inoC7).1 = 0 ∧
    (sffs_get_data_block_info fsC7 0 SFFS_GET_BLK_LT dbInfo0 inoC7).2.2.inode_id = 1 ∧
    (sffs_get_data_block_info fsC7 0 SFFS_GET_BLK_LT dbInfo0 inoC7).2.2.list_id = 32 ∧
    (sffs_get_data_block_info fsC7 0 SFFS_GET_BLK_LT dbInfo0 inoC7).2.2.block_id = 111 ∧
    (sffs_get_data_block_info fsC7 32 0 dbInfo0 inoC7).2.2.inode_id = 5 ∧
    (sffs_get_data_block_info fsC7 32 0 dbInfo0 inoC7).2.2.list_id = 0 ∧
    (sffs_get_data_block_info fsC7 32 0 dbInfo0 inoC7).2.2.block_id = 777 := by
  refine ⟨by decide, by decide, by decide, by decide, by decide, by decide, by decide⟩

/-- C8: `sffs_write_inode` decrements `s_free_inodes_count` even when the
target inode's GIT bit is already set: in `fsC8` inode 1's bit is 1
before the call (first conjunct), the overwrite reports success (second
conjunct), yet the free count drops from 10 to 9 (third conjunct) -
the decrement at src/src/sffs.c line 117 is unconditional. -/
theorem sffs_write_inode_decrements_on_overwrite :
    (sffs_check_GIT_bm fsC8 1).1 = 1 ∧
    (sffs_write_inode fsC8 inoC8).1 = 1 ∧
    (sffs_write_inode fsC8 inoC8).2.sb.s_free_inodes_count = 9 := by
  refine ⟨by decide, by decide, by decide⟩

/-- C10: for every volume size and format time, with block size 1024 the
superblock produced by `__sffs_init` has its data-region device base
(the block offset that `sffs_read_data_blk`/`sffs_write_data_blk` add,
i.e. `sffs_data_start`) equal to
`s_data_bitmap_size + s_GIT_bitmap_size + s_GIT_size + 1`, which is
`s_GIT_start + s_GIT_size - 1`; since `s_GIT_size ≥ 1`, data-relative
block 0 therefore addresses the last block of the GIT region, one short
of the first block after it. -/
theorem sffs_data_start_off_by_one :
    ∀ (fs_size now : Nat),
      sffs_data_start (__sffs_init fs_size 1024 now).2 =
          (__sffs_init fs_size 1024 now).2.s_data_bitmap_size +
            (__sffs_init fs_size 1024 now).2.s_GIT_bitmap_size +
            (__sffs_init fs_size 1024 now).2.s_GIT_size + 1 ∧
        sffs_data_start (__sffs_init fs_size 1024 now).2 + 1 =
          (__sffs_init fs_size 1024 now).2.s_GIT_start +
            (__sffs_init fs_size 1024 now).2.s_GIT_size ∧
        (__sffs_init fs_size 1024 now).2.s_GIT_start ≤
          sffs_data_start (__sffs_init fs_size 1024 now).2 := by
  intro fs_size now
  have h1 : (__sffs_init fs_size 1024 now).2.s_block_size = 1024 := rfl
  have h2 : (__sffs_init fs_size 1024 now).2.s_GIT_start =
      2 + (__sffs_init fs_size 1024 now).2.s_data_bitmap_size +
        (__sffs_init fs_size 1024 now).2.s_GIT_bitmap_size := rfl
  have h4 : 1 ≤ (__sffs_init fs_size 1024 now).2.s_GIT_size :=
    Nat.le_add_left 1 _
  have h3 : sffs_data_start (__sffs_init fs_size 1024 now).2 =
      (__sffs_init fs_size 1024 now).2.s_GIT_bitmap_size +
        (__sffs_init fs_size 1024 now).2.s_GIT_size +
        (__sffs_init fs_size 1024 now).2.s_data_bitmap_size + 1 := by
    rw [sffs_data_start, h1]
    norm_num
  exact ⟨by omega, by omega, by omega⟩

/-- A one-block device write leaves every other block unchanged. -/
theorem writeBytesD_other (disk : Nat → Nat → Nat) (B blk : Nat)
    (data : Nat → Nat) (b j : Nat) (h : b ≠ blk) :
    writeBytesD disk B blk data (1 * B) b j = disk b j := by
  unfold writeBytesD
  rw [if_neg]
  rintro ⟨h1, h2, h3⟩
  have hd : 0 < b - blk := by omega
  have hm : B ≤ (b - blk) * B := Nat.le_mul_of_pos_left B hd
  omega

/-- A one-block device write replaces the target block's bytes. -/
theorem writeBytesD_self (disk : Nat → Nat → Nat) (B blk : Nat)
    (data : Nat → Nat) (j : Nat) (hj : j < B) :
    writeBytesD disk B blk data (1 * B) blk j = data j := by
  unfold writeBytesD
  rw [if_pos]
  · simp
  · exact ⟨Nat.le_refl blk, hj, by simpa⟩

/-- Reading one block delivers the target block's bytes at small offsets. -/
theorem devReadInto_blk (disk : Nat → Nat → Nat) (B blk : Nat)
    (dest : Nat → Nat) (j : Nat) (hj : j < B) :
    devReadInto disk B blk (1 * B) dest j = disk blk j := by
  unfold devReadInto readBytes
  rw [if_pos (by simpa), Nat.div_eq_of_lt hj, Nat.mod_eq_of_lt hj, Nat.add_zero]

/-- `memcpyB` inside the copied window. -/
theorem memcpyB_in (dest : Nat → Nat) (doff : Nat) (src : Nat → Nat)
    (soff n j : Nat) (h1 : doff ≤ j) (h2 : j < doff + n) :
    memcpyB dest doff src soff n j = src (soff + (j - doff)) := by
  unfold memcpyB
  rw [if_pos ⟨h1, h2⟩]

/-- `memcpyB` outside the copied window. -/
theorem memcpyB_out (dest : Nat → Nat) (doff : Nat) (src : Nat → Nat)
    (soff n j : Nat) (h : ¬(doff ≤ j ∧ j < doff + n)) :
    memcpyB dest doff src soff n j = dest j := by
  unfold memcpyB
  rw [if_neg h]

/-- Bytes read through `getU8` are below 256. -/
theorem getU8_lt (b : Nat → Nat) (off : Nat) : getU8 b off < 256 :=
  Nat.mod_lt _ (by norm_num)

/-- `setU8` at the written offset. -/
theorem getU8_setU8_same (b : Nat → Nat) (off v : Nat) :
    getU8 (setU8 b off v) off = v % 256 := by
  unfold getU8 setU8
  simp

/-- The masked-bit test of the bitmap helpers, phrased through `testBit`. -/
theorem land_two_pow_eq_iff (x i : Nat) :
    Nat.land x (2 ^ i) = 2 ^ i ↔ x.testBit i = true := by
  rw [show Nat.land x (2 ^ i) = x &&& 2 ^ i from rfl, Nat.and_two_pow]
  cases h : x.testBit i <;> simp [h]
  exact fun hh => absurd hh.symm (Nat.pos_iff_ne_zero.mp (Nat.two_pow_pos i))

/-- Setting a clear bit through `__set_bm` succeeds and ors the bit into
the addressed byte. -/
theorem __set_bm_of_clear (c : Nat → Nat) (id : Nat)
    (h : __check_bm c id = 0) :
    __set_bm c id 1 =
      (1, setU8 c (id / 8) (Nat.lor (getU8 c (id / 8)) (2 ^ (id % 8)))) := by
  simp only [__check_bm] at h
  split at h
  · exact absurd h (by norm_num)
  · next hc =>
    simp only [__set_bm]
    rw [if_pos hc]
    simp

/-- After oring `2 ^ (id % 8)` into byte `id / 8`, `__check_bm` sees the
bit set. -/
theorem __check_bm_after_or (c : Nat → Nat) (id : Nat) :
    __check_bm (setU8 c (id / 8) (Nat.lor (getU8 c (id / 8)) (2 ^ (id % 8)))) id = 1 := by
  unfold __check_bm
  rw [if_pos]
  have hlt : Nat.lor (getU8 c (id / 8)) (2 ^ (id % 8)) < 256 := by
    have h1 : getU8 c (id / 8) < 2 ^ 8 := getU8_lt c (id / 8)
    have h2 : 2 ^ (id % 8) < 2 ^ 8 :=
      Nat.pow_lt_pow_right (by norm_num) (Nat.mod_lt _ (by norm_num))
    exact Nat.or_lt_two_pow h1 h2
  rw [getU8_setU8_same, Nat.mod_eq_of_lt hlt, land_two_pow_eq_iff]
  rw [show Nat.lor (getU8 c (id / 8)) (2 ^ (id % 8)) =
    getU8 c (id / 8) ||| 2 ^ (id % 8) from rfl]
  rw [Nat.testBit_lor, Nat.testBit_two_pow_self]
  exact Bool.or_true _

theorem natCast_lt_zero_false (n : Nat) : (((n : Nat) : Int) < 0) = False :=
  eq_false (not_lt.mpr (Int.natCast_nonneg n))

theorem __check_bm_congr (c d : Nat → Nat) (id : Nat)
    (h : c (id / 8) = d (id / 8)) : __check_bm c id = __check_bm d id := by
  simp only [__check_bm, getU8, h]

theorem __sffs_check_bm_eq (fs : FS) (bm id : Nat) :
    __sffs_check_bm fs bm id =
      (__check_bm (bmReadCache fs bm id) (id % fs.sb.s_block_size),
        { fs with cache := bmReadCache fs bm id }) := by
  unfold __sffs_check_bm sffs_read_blk bmReadCache
  dsimp only
  simp only [natCast_lt_zero_false, if_false]

theorem __sffs_set_bm_set_eq (fs : FS) (bm id : Nat)
    (hblk : ¬(bm + id / fs.sb.s_block_size = 0))
    (hclear : __check_bm (bmReadCache fs bm id) (id % fs.sb.s_block_size) = 0) :
    __sffs_set_bm fs bm id 1 =
      (1, { fs with
            disk := writeBytesD fs.disk fs.sb.s_block_size
              (bm + id / fs.sb.s_block_size) (bmSetCache fs bm id)
              (1 * fs.sb.s_block_size)
            cache := bmSetCache fs bm id }) := by
  unfold __sffs_set_bm sffs_read_blk sffs_write_blk
  dsimp only
  simp only [natCast_lt_zero_false, if_false]
  rw [show devReadInto fs.disk fs.sb.s_block_size (bm + id / fs.sb.s_block_size)
      (1 * fs.sb.s_block_size) fs.cache = bmReadCache fs bm id from rfl]
  rw [show Nat.land 1 1 = 1 from rfl]
  rw [__set_bm_of_clear _ _ hclear]
  dsimp only
  rw [if_neg hblk]
  simp only [natCast_lt_zero_false, if_false]
  rw [if_neg (by norm_num : ¬((1 : Int) < 0))]
  rfl

theorem wiFs1_disk (fs : FS) (x : Nat → Nat) :
    (wiFs1 fs x).disk = writeBytesD fs.disk fs.sb.s_block_size (wiGitBlk fs x)
      (wiCacheW fs x) (1 * fs.sb.s_block_size) := rfl

theorem wiFs1_block_size (fs : FS) (x : Nat → Nat) :
    (wiFs1 fs x).sb.s_block_size = fs.sb.s_block_size := rfl

theorem sffs_write_inode_eq (fs : FS) (x : Nat → Nat)
    (hgit0 : ¬(wiGitBlk fs x = 0)) :
    sffs_write_inode fs x = sffs_set_GIT_bm (wiFs1 fs x) (getU32 x 0) := by
  unfold wiGitBlk at hgit0
  unfold sffs_write_inode sffs_read_blk sffs_write_blk wiFs1 wiCacheW wiGitBlk wiOff
  dsimp only
  simp only [natCast_lt_zero_false, if_false]
  rw [if_neg hgit0]
  dsimp only
  simp only [natCast_lt_zero_false, if_false]

theorem sffs_read_inode_eq_found (fs : FS) (ino_id : Nat) (dest : Nat → Nat)
    (hset : __check_bm (bmReadCache fs fs.sb.s_GIT_bitmap_start ino_id)
      (ino_id % fs.sb.s_block_size) = 1) :
    sffs_read_inode fs ino_id dest =
      (1, { fs with cache := riCache fs ino_id },
        memcpyB dest 0 (riCache fs ino_id) (riOff fs ino_id)
          (fs.sb.s_inode_block_size + fs.sb.s_inode_size)) := by
  unfold sffs_read_inode sffs_check_GIT_bm
  rw [__sffs_check_bm_eq]
  dsimp only
  rw [hset]
  rw [if_pos (by norm_num : (1 : Int) ≠ 0)]
  unfold sffs_read_blk
  dsimp only
  simp only [natCast_lt_zero_false, if_false]
  unfold riCache riGitBlk riOff
  dsimp only

theorem double_write_read_at (disk : Nat → Nat → Nat) (B g m : Nat)
    (cW c2 : Nat → Nat) (k : Nat) (hk : k < B) (hgm : g ≠ m) :
    writeBytesD (writeBytesD disk B g cW (1 * B)) B m c2 (1 * B) g k = cW k := by
  rw [writeBytesD_other _ _ _ _ _ _ hgm, writeBytesD_self _ _ _ _ _ hk]

theorem bmReadCache_byte (fs : FS) (bm id j : Nat) (hj : j < fs.sb.s_block_size) :
    bmReadCache fs bm id j = fs.disk (bm + id / fs.sb.s_block_size) j :=
  devReadInto_blk _ _ _ _ _ hj

theorem wiFsW_disk (fs : FS) (x : Nat → Nat) :
    (wiFsW fs x).disk = writeBytesD (wiFs1 fs x).disk fs.sb.s_block_size
      (fs.sb.s_GIT_bitmap_start + getU32 x 0 / fs.sb.s_block_size)
      (bmSetCache (wiFs1 fs x) fs.sb.s_GIT_bitmap_start (getU32 x 0))
      (1 * fs.sb.s_block_size) := rfl

theorem wiFsW_block_size (fs : FS) (x : Nat → Nat) :
    (wiFsW fs x).sb.s_block_size = fs.sb.s_block_size := rfl

/-- C6: inode entry write-then-read round-trip.  For any context whose
inode entry size is positive and fits in a block, any entry whose inode
id's GIT bitmap bit is clear, and any inode-vs-bitmap block layout that
does not alias (the GIT slot block is neither block 0 nor the bitmap
block), `sffs_write_inode` succeeds (returns true = 1) and a subsequent
`sffs_read_inode` of the same inode id succeeds (returns true = 1) and
delivers exactly the `ino_entry_size` bytes that were written, into any
destination buffer. -/
theorem sffs_write_read_inode_roundtrip (fs : FS) (x y : Nat → Nat)
    (hsz : 0 < fs.sb.s_inode_block_size + fs.sb.s_inode_size)
    (hszB : fs.sb.s_inode_block_size + fs.sb.s_inode_size ≤ fs.sb.s_block_size)
    (hbit : (sffs_check_GIT_bm fs (getU32 x 0)).1 = 0)
    (hgit0 : wiGitBlk fs x ≠ 0)
    (hbm0 : fs.sb.s_GIT_bitmap_start + getU32 x 0 / fs.sb.s_block_size ≠ 0)
    (hne : wiGitBlk fs x ≠ fs.sb.s_GIT_bitmap_start + getU32 x 0 / fs.sb.s_block_size) :
    (sffs_write_inode fs x).1 = 1 ∧
      (sffs_read_inode (sffs_write_inode fs x).2 (getU32 x 0) y).1 = 1 ∧
      ∀ j < fs.sb.s_inode_block_size + fs.sb.s_inode_size,
        (sffs_read_inode (sffs_write_inode fs x).2 (getU32 x 0) y).2.2 j = x j := by
  have hB : 0 < fs.sb.s_block_size := lt_of_lt_of_le hsz hszB
  have hbyte : getU32 x 0 % fs.sb.s_block_size / 8 < fs.sb.s_block_size :=
    lt_of_le_of_lt (Nat.div_le_self _ 8) (Nat.mod_lt _ hB)
  have hc0 : __check_bm (bmReadCache fs fs.sb.s_GIT_bitmap_start (getU32 x 0))
      (getU32 x 0 % fs.sb.s_block_size) = 0 := by
    have h := hbit
    unfold sffs_check_GIT_bm at h
    rw [__sffs_check_bm_eq] at h
    exact h
  have hclear : __check_bm (bmReadCache (wiFs1 fs x) fs.sb.s_GIT_bitmap_start (getU32 x 0))
      (getU32 x 0 % fs.sb.s_block_size) = 0 := by
    have heq : bmReadCache (wiFs1 fs x) fs.sb.s_GIT_bitmap_start (getU32 x 0)
        (getU32 x 0 % fs.sb.s_block_size / 8) =
        bmReadCache fs fs.sb.s_GIT_bitmap_start (getU32 x 0)
          (getU32 x 0 % fs.sb.s_block_size / 8) := by
      rw [bmReadCache_byte (wiFs1 fs x) _ _ _ hbyte]
      rw [bmReadCache_byte fs _ _ _ hbyte]
      rw [wiFs1_disk, wiFs1_block_size]
      exact writeBytesD_other _ _ _ _ _ _ (Ne.symm hne)
    exact (__check_bm_congr
      (bmReadCache (wiFs1 fs x) fs.sb.s_GIT_bitmap_start (getU32 x 0))
      (bmReadCache fs fs.sb.s_GIT_bitmap_start (getU32 x 0))
      (getU32 x 0 % fs.sb.s_block_size) heq).trans hc0
  have hw : sffs_write_inode fs x = (1, wiFsW fs x) := by
    rw [sffs_write_inode_eq fs x hgit0]
    unfold sffs_set_GIT_bm wiFsW
    exact __sffs_set_bm_set_eq (wiFs1 fs x) _ _ hbm0 hclear
  have hsetW : __check_bm (bmReadCache (wiFsW fs x) fs.sb.s_GIT_bitmap_start (getU32 x 0))
      (getU32 x 0 % fs.sb.s_block_size) = 1 := by
    have hstep : bmReadCache (wiFsW fs x) fs.sb.s_GIT_bitmap_start (getU32 x 0)
        (getU32 x 0 % fs.sb.s_block_size / 8) =
        bmSetCache (wiFs1 fs x) fs.sb.s_GIT_bitmap_start (getU32 x 0)
          (getU32 x 0 % fs.sb.s_block_size / 8) := by
      rw [bmReadCache_byte (wiFsW fs x) _ _ _ hbyte]
      rw [wiFsW_disk, wiFsW_block_size]
      exact writeBytesD_self _ _ _ _ _ hbyte
    refine (__check_bm_congr
      (bmReadCache (wiFsW fs x) fs.sb.s_GIT_bitmap_start (getU32 x 0))
      (bmSetCache (wiFs1 fs x) fs.sb.s_GIT_bitmap_start (getU32 x 0))
      (getU32 x 0 % fs.sb.s_block_size) hstep).trans ?_
    unfold bmSetCache
    exact __check_bm_after_or (bmReadCache (wiFs1 fs x) fs.sb.s_GIT_bitmap_start (getU32 x 0))
      (getU32 x 0 % fs.sb.s_block_size)
  have hipb : 0 < fs.sb.s_block_size / (fs.sb.s_inode_block_size + fs.sb.s_inode_size) :=
    Nat.div_pos hszB hsz
  have hoffsz : wiOff fs x + (fs.sb.s_inode_block_size + fs.sb.s_inode_size) ≤
      fs.sb.s_block_size := by
    have h1 : getU32 x 0 % (fs.sb.s_block_size / (fs.sb.s_inode_block_size + fs.sb.s_inode_size)) + 1 ≤
        fs.sb.s_block_size / (fs.sb.s_inode_block_size + fs.sb.s_inode_size) :=
      Nat.mod_lt _ hipb
    have h2 := mul_le_mul_right' h1 (fs.sb.s_inode_block_size + fs.sb.s_inode_size)
    rw [Nat.succ_mul] at h2
    have h3 := Nat.div_mul_le_self fs.sb.s_block_size
      (fs.sb.s_inode_block_size + fs.sb.s_inode_size)
    unfold wiOff
    omega
  refine ⟨by rw [hw], ?_, ?_⟩
  · rw [hw]
    dsimp only
    rw [sffs_read_inode_eq_found _ _ _ hsetW]
  · intro j hj
    rw [hw]
    dsimp only
    rw [sffs_read_inode_eq_found _ _ _ hsetW]
    dsimp only
    have hOJ : wiOff fs x + j < fs.sb.s_block_size := by omega
    have hroff : riOff (wiFsW fs x) (getU32 x 0) = wiOff fs x := rfl
    have hrsz : (wiFsW fs x).sb.s_inode_block_size + (wiFsW fs x).sb.s_inode_size =
        fs.sb.s_inode_block_size + fs.sb.s_inode_size := rfl
    rw [hroff]
    rw [memcpyB_in y 0 (riCache (wiFsW fs x) (getU32 x 0)) (wiOff fs x)
      ((wiFsW fs x).sb.s_inode_block_size + (wiFsW fs x).sb.s_inode_size) j
      (Nat.zero_le j) (by rw [hrsz]; omega)]
    rw [Nat.sub_zero]
    have hrc : riCache (wiFsW fs x) (getU32 x 0) (wiOff fs x + j) =
        (wiFsW fs x).disk (wiGitBlk fs x) (wiOff fs x + j) := by
      have hrg : riGitBlk (wiFsW fs x) (getU32 x 0) = wiGitBlk fs x := rfl
      unfold riCache
      rw [hrg, wiFsW_block_size]
      exact devReadInto_blk _ _ _ _ _ hOJ
    rw [hrc, wiFsW_disk, wiFs1_disk]
    rw [double_write_read_at fs.disk fs.sb.s_block_size (wiGitBlk fs x)
      (fs.sb.s_GIT_bitmap_start + getU32 x 0 / fs.sb.s_block_size)
      (wiCacheW fs x) (bmSetCache (wiFs1 fs x) fs.sb.s_GIT_bitmap_start (getU32 x 0))
      (wiOff fs x + j) hOJ hne]
    unfold wiCacheW
    rw [memcpyB_in _ _ x 0 (fs.sb.s_inode_block_size + fs.sb.s_inode_size)
      (wiOff fs x + j) (Nat.le_add_right _ j) (by omega)]
    rw [Nat.add_sub_cancel_left, Nat.zero_add]

/-- Closed round-trip instance over `fsRT`/`xRT`. -/
theorem sffs_write_read_inode_roundtrip_witness :
    (0 < fsRT.sb.s_inode_block_size + fsRT.sb.s_inode_size) ∧
    (fsRT.sb.s_inode_block_size + fsRT.sb.s_inode_size ≤ fsRT.sb.s_block_size) ∧
    ((sffs_check_GIT_bm fsRT (getU32 xRT 0)).1 = 0) ∧
    ((sffs_write_inode fsRT xRT).1 = 1 ∧
      (sffs_read_inode (sffs_write_inode fsRT xRT).2 (getU32 xRT 0) (fun _ => 0)).1 = 1 ∧
      ∀ j < fsRT.sb.s_inode_block_size + fsRT.sb.s_inode_size,
        (sffs_read_inode (sffs_write_inode fsRT xRT).2 (getU32 xRT 0) (fun _ => 0)).2.2 j = xRT j) :=
  ⟨by decide, by decide, by decide,
    sffs_write_read_inode_roundtrip fsRT xRT (fun _ => 0) (by decide) (by decide)
      (by decide) (by decide) (by decide) (by decide)⟩

theorem sffs_read_inode_preserves (fs : FS) (i : Nat) (d : Nat → Nat) :
    (sffs_read_inode fs i d).2.1.disk = fs.disk ∧
    (sffs_read_inode fs i d).2.1.sb = fs.sb := by
  unfold sffs_read_inode sffs_check_GIT_bm
  rw [__sffs_check_bm_eq]
  dsimp only
  split
  · unfold sffs_read_blk
    dsimp only
    simp only [natCast_lt_zero_false, if_false]
    refine ⟨?_, ?_⟩ <;> first | rfl | trivial
  · exact ⟨rfl, rfl⟩

theorem gdbiChain_preserves (n : Nat) :
    ∀ (fs : FS) (buf : Nat → Nat) (supp_ino : Nat) (assigned : Bool),
      (gdbiChain fs buf supp_ino n assigned).1.disk = fs.disk ∧
      (gdbiChain fs buf supp_ino n assigned).1.sb = fs.sb := by
  induction n with
  | zero => intro fs buf supp assigned; exact ⟨rfl, rfl⟩
  | succ n ih =>
    intro fs buf supp assigned
    unfold gdbiChain
    split
    · exact ⟨rfl, rfl⟩
    · dsimp only
      have hr := sffs_read_inode_preserves fs supp buf
      have hrec := ih (sffs_read_inode fs supp buf).2.1 (sffs_read_inode fs supp buf).2.2
        (getU32 (sffs_read_inode fs supp buf).2.2 4) true
      exact ⟨hrec.1.trans hr.1, hrec.2.trans hr.2⟩

theorem gdbi_preserves (fs : FS) (bn flags : Nat) (db : DbInfo) (ino : Nat → Nat) :
    (sffs_get_data_block_info fs bn flags db ino).2.1.disk = fs.disk ∧
    (sffs_get_data_block_info fs bn flags db ino).2.1.sb = fs.sb := by
  unfold sffs_get_data_block_info
  dsimp only
  repeat' split
  all_goals first
    | exact ⟨rfl, rfl⟩
    | exact gdbiChain_preserves _ fs _ _ _

theorem lookupBlocks_preserves (fuel : Nat) :
    ∀ (fs : FS) (ino_mem : Nat → Nat) (path : List Nat) (i : Nat),
      (lookupBlocks fs ino_mem path fuel i).2.disk = fs.disk ∧
      (lookupBlocks fs ino_mem path fuel i).2.sb = fs.sb := by
  induction fuel with
  | zero => intro fs m p i; exact ⟨rfl, rfl⟩
  | succ fuel ih =>
    intro fs m p i
    unfold lookupBlocks
    dsimp only
    have hg := gdbi_preserves fs i SFFS_GET_BLK_RD dbInfo0 m
    split
    · exact hg
    · split
      · exact hg
      · have hrec := ih (sffs_get_data_block_info fs i SFFS_GET_BLK_RD dbInfo0 m).2.1 m p (i + 1)
        exact ⟨hrec.1.trans hg.1, hrec.2.trans hg.2⟩

theorem sffs_lookup_direntry_preserves (fs : FS) (parent : Nat → Nat) (path : List Nat) :
    (sffs_lookup_direntry fs parent path).2.disk = fs.disk ∧
    (sffs_lookup_direntry fs parent path).2.sb = fs.sb := by
  unfold sffs_lookup_direntry
  split
  · exact ⟨rfl, rfl⟩
  · exact lookupBlocks_preserves _ fs parent path 0

/-- C9: `sffs_add_direntry` refuses duplicates.  Whenever the new record's
`rec_len` passes the size check and `sffs_lookup_direntry` finds an entry
of the same name under the parent, `sffs_add_direntry` returns
`SFFS_ERR_ENTEXIS` and leaves the disk, the superblock and the parent's
in-memory inode unchanged. -/
theorem sffs_add_direntry_refuses_duplicate (fs : FS) (parent : Nat → Nat) (d : Direntry)
    (hlen : ¬ d.rec_len > SFFS_MAX_DIR_ENTRY)
    (hfound : (sffs_lookup_direntry fs parent d.name).1 = 1) :
    (sffs_add_direntry fs parent d).1 = SFFS_ERR_ENTEXIS ∧
    (sffs_add_direntry fs parent d).2.1.disk = fs.disk ∧
    (sffs_add_direntry fs parent d).2.1.sb = fs.sb ∧
    (sffs_add_direntry fs parent d).2.2 = parent := by
  unfold sffs_add_direntry
  rw [if_neg hlen]
  dsimp only
  rw [if_pos hfound]
  have hp := sffs_lookup_direntry_preserves fs parent d.name
  exact ⟨rfl, hp.1, hp.2, rfl⟩

/-- Closed duplicate-refusal instance over `fsC9`. -/
theorem sffs_add_direntry_refuses_duplicate_witness :
    ¬ dirC9.rec_len > SFFS_MAX_DIR_ENTRY ∧
    (sffs_lookup_direntry fsC9 parentC9 dirC9.name).1 = 1 ∧
    (sffs_add_direntry fsC9 parentC9 dirC9).1 = SFFS_ERR_ENTEXIS ∧
    (sffs_add_direntry fsC9 parentC9 dirC9).2.2 = parentC9 :=
  ⟨by decide, by decide,
    (sffs_add_direntry_refuses_duplicate fsC9 parentC9 dirC9 (by decide) (by decide)).1,
    (sffs_add_direntry_refuses_duplicate fsC9 parentC9 dirC9 (by decide) (by decide)).2.2.2⟩
